import Mathlib

/-!
Verification of the field-structure validating engine of the `ecfformat`
package (ECF results submission files).

The development shallowly embeds, from the Python source:

* `ecfformat/core/expectedfields.py` — the `ExpectedFields`, `EventDetails`
  and `TableStart` classes (table of expected fields per context, removal
  operations, boundary validations);
* `ecfformat/core/table.py` — the `Table` class (column collection, the
  verbatim table rendering `get_table_fields`, and the translation
  `translate_table_to_name_value_pairs`);
* `ecfformat/core/fields.py` — `Fields.append_table` and the `error_tag`
  attribute behind `is_valid_result_submission_format`;
* `ecfformat/core/parser.py` — the `Parser` class: the field splitter,
  the per-field handler dispatch, and the forward-pass driver.

Python `set` objects are modelled as duplicate-free `List String` values
(construction always dedups, insertion is guarded by membership), and
Python `dict` objects as association lists with in-place update, so the
observable operations (membership, removal, lookup, length) agree with the
source.  Python exceptions are modelled by `Option`/explicit outcome
constructors: `none`/`crash` marks an unhandled exception,
`FieldTooLongError` is a dedicated outcome carrying its message.

The tkinter `Text` widget is an external collaborator: the engine only
inserts field names/values with tags and scans backwards over the inserted
field-name ranges (`_pick_comment_tag`, `_get_table_type`).  The embedding
records, for every inserted field name, the pair (tag name, displayed
text) in `PState.history`, which is exactly the information those two
backward scans consult: the identity/suffix tags also present on a range
(for example `PIN3`, `PLAYER1`) carry a numeric suffix and therefore never
belong to the part/subpart name sets those scans intersect with.
-/

/-! ## Character/string helpers (Python `str` operations used by the source) -/

/-- `c` counts as whitespace for `str.strip`/`str.split` purposes. -/
def isWs (c : Char) : Bool := c.isWhitespace

/-- Remove leading and trailing whitespace characters: Python `str.strip()`. -/
def stripChars (l : List Char) : List Char :=
  ((l.dropWhile isWs).reverse.dropWhile isWs).reverse

/-- Python `str.strip()`. -/
def pyStrip (s : String) : String := String.mk (stripChars s.data)

/-- Python `str.strip("\n")` as used by `Table.add_value`. -/
def pyStripNewline (s : String) : String :=
  String.mk (((s.data.dropWhile (fun c => c = '\n')).reverse.dropWhile
    (fun c => c = '\n')).reverse)

/-- Python `str.upper()` (ASCII data in this format). -/
def pyUpper (s : String) : String := String.mk (s.data.map Char.toUpper)

/-- Python `"".join(s.split()).upper()`: drop all whitespace, uppercase.
Used to turn a field name into its tag. -/
def removeWsUpper (s : String) : String :=
  String.mk ((s.data.filter (fun c => ¬ isWs c)).map Char.toUpper)

/-- Python `s[:n]`. -/
def pyTake (s : String) (n : Nat) : String := String.mk (s.data.take n)

/-- Split a character list on a separator character, keeping empty pieces:
Python `str.split(sep)` (every occurrence, no maxsplit). -/
def splitSepAux (sep : Char) (cur : List Char) : List Char → List (List Char)
  | [] => [cur.reverse]
  | c :: cs =>
      if c = sep then cur.reverse :: splitSepAux sep [] cs
      else splitSepAux sep (c :: cur) cs

/-- Python `text.split("#")`. -/
def splitHash (s : String) : List String :=
  (splitSepAux '#' [] s.data).map String.mk

/-- Python `body.split("=", 1)`: the part before the first `=` and,
when a `=` is present, everything after it. -/
def breakAtEq : List Char → List Char × Option (List Char)
  | [] => ([], none)
  | c :: cs =>
      if c = '=' then ([], some cs)
      else
        let r := breakAtEq cs
        (c :: r.1, r.2)

/-- Python `"#".join(l)` (`constants.FIELD_SEPARATOR.join`). -/
def joinHash : List String → String
  | [] => ""
  | [s] => s
  | s :: rest => s ++ "#" ++ joinHash rest

/-! ## `ecfformat/core/constants.py` — tag names and field groupings -/

def ADJUDICATED : String := "ADJUDICATED"
def BCF_CODE : String := "BCFCODE"
def BCF_NO : String := "BCFNO"
def BOARD : String := "BOARD"
def CLUB : String := "CLUB"
def CLUB_CODE : String := "CLUBCODE"
def CLUB_COUNTY : String := "CLUBCOUNTY"
def CLUB_NAME : String := "CLUBNAME"
def COLOUR : String := "COLOUR"
def COLUMN : String := "COLUMN"
def COMMENT : String := "COMMENT"
def COMMENT_LIST : String := "COMMENTLIST"
def COMMENT_PIN : String := "COMMENTPIN"
def DATE_OF_BIRTH : String := "DATEOFBIRTH"
def ECF_CODE : String := "ECFCODE"
def ECF_NO : String := "ECFNO"
def ENVIRONMENT : String := "ENVIRONMENT"
def EVENT_CODE : String := "EVENTCODE"
def EVENT_DATE : String := "EVENTDATE"
def EVENT_DETAILS : String := "EVENT"
def EVENT_NAME : String := "EVENTNAME"
def FIDE_NO : String := "FIDENO"
def FINAL_RESULT_DATE : String := "FINALRESULTDATE"
def FINISH : String := "FINISH"
def FORENAME : String := "FORENAME"
def GAME_DATE : String := "GAMEDATE"
def GENDER : String := "GENDER"
def INFORM_FIDE : String := "INFORMFIDE"
def INFORM_CHESSMOVES : String := "INFORMCHESSMOVES"
def INFORM_GRAND_PRIX : String := "INFORMGRANDPRIX"
def INFORM_UNION : String := "INFORMUNION"
def INITIALS : String := "INITIALS"
def MATCH_RESULTS : String := "MATCH"
def MINUTES_FIRST_SESSION : String := "MINUTESFIRSTSESSION"
def MINUTES_FOR_GAME : String := "MINUTESFORGAME"
def MINUTES_REST_OF_GAME : String := "MINUTESRESTOFGAME"
def MINUTES_SECOND_SESSION : String := "MINUTESSECONDSESSION"
def MOVES_FIRST_SESSION : String := "MOVESFIRSTSESSION"
def MOVES_SECOND_SESSION : String := "MOVESSECONDSESSION"
def NAME : String := "NAME"
def OTHER_RESULTS : String := "OTHER"
def PIN : String := "PIN"
def PIN1 : String := "HPIN"
def PIN2 : String := "APIN"
def PLAYER_LIST : String := "PLAYER"
def RESULTS_DATE : String := "RESULTSDATE"
def RESULTS_DUPLICATED : String := "RESULTSDUPLICATED"
def RESULTS_OFFICER : String := "RESULTSOFFICER"
def RESULTS_OFFICER_ADDRESS : String := "RESULTSOFFICERADDRESS"
def ROUND : String := "ROUND"
def SCORE : String := "SCORE"
def SECONDS_PER_MOVE : String := "SECONDSPERMOVE"
def SECTION_RESULTS : String := "SECTION"
def SUBMISSION_INDEX : String := "SUBMISSIONINDEX"
def SURNAME : String := "SURNAME"
def TABLE_START : String := "TABLESTART"
def TABLE_END : String := "TABLEEND"
def TITLE : String := "TITLE"
def TREASURER : String := "TREASURER"
def TREASURER_ADDRESS : String := "TREASURERADDRESS"
def WHITE_ON : String := "WHITEON"

/-- Field name assumed for the `#<value>#` items between TABLE START and
TABLE END. -/
def TABLE_VALUE : String := ""

def FIELD_SEPARATOR : String := "#"
def NAME_VALUE_SEPARATOR : String := "="

def NAME_ONLY_FIELDS : List String := [EVENT_DETAILS, FINISH, PLAYER_LIST]
def SUBPART_TAGS : List String := [PIN, PIN1]
def PART_TAGS : List String :=
  [EVENT_DETAILS, FINISH, MATCH_RESULTS, PLAYER_LIST, OTHER_RESULTS,
    SECTION_RESULTS]
def RECORD_TAGS : List String :=
  [MATCH_RESULTS, PLAYER_LIST, OTHER_RESULTS, SECTION_RESULTS]
def TABLE_TYPES : List String := RECORD_TAGS
def PARSE_STOP_AT_FIELDS : List String := PART_TAGS

def FIELDS_ALLOWED_IN_MATCH : List String :=
  [PIN1, PIN2, SCORE, COLOUR, BOARD, GAME_DATE, COMMENT]
def FIELDS_ALLOWED_IN_OTHER : List String :=
  [PIN1, PIN2, SCORE, COLOUR, GAME_DATE, COMMENT]
def FIELDS_ALLOWED_IN_SECTION : List String :=
  [PIN1, PIN2, SCORE, COLOUR, ROUND, GAME_DATE, COMMENT]
def FIELDS_ALLOWED_IN_PLAYERS : List String :=
  [PIN, ECF_CODE, NAME, SURNAME, FORENAME, INITIALS, GENDER, TITLE,
    DATE_OF_BIRTH, CLUB_CODE, CLUB_NAME, CLUB_COUNTY, ECF_NO, FIDE_NO,
    COMMENT, BCF_CODE, BCF_NO, CLUB]

def PIN_SET_TERMINATORS : List String :=
  [COLUMN, FINISH, MATCH_RESULTS, OTHER_RESULTS, SECTION_RESULTS]
def PIN1_SET_TERMINATORS : List String := PIN_SET_TERMINATORS
def PLAYERS_SET_TERMINATORS : List String := PIN_SET_TERMINATORS

def NAME_BCF_CODE : String := "BCF CODE"
def NAME_BCF_NO : String := "BCF NO"
def NAME_CLUB_CODE : String := "CLUB CODE"
def NAME_CLUB_COUNTY : String := "CLUB COUNTY"
def NAME_CLUB_NAME : String := "CLUB NAME"
def NAME_COMMENT : String := "COMMENT"
def NAME_DATE_OF_BIRTH : String := "DATE OF BIRTH"
def NAME_ECF_CODE : String := "ECF CODE"
def NAME_ECF_NO : String := "ECF NO"
def NAME_EVENT_CODE : String := "EVENT CODE"
def NAME_EVENT_DATE : String := "EVENT DATE"
def NAME_EVENT_DETAILS : String := "EVENT DETAILS"
def NAME_EVENT_NAME : String := "EVENT NAME"
def NAME_FIDE_NO : String := "FIDE NO"
def NAME_FINAL_RESULT_DATE : String := "FINAL RESULT DATE"
def NAME_GAME_DATE : String := "GAME DATE"
def NAME_INFORM_FIDE : String := "INFORM FIDE"
def NAME_INFORM_CHESSMOVES : String := "INFORM CHESSMOVES"
def NAME_INFORM_GRAND_PRIX : String := "INFORM GRAND PRIX"
def NAME_INFORM_UNION : String := "INFORM UNION"
def NAME_MATCH_RESULTS : String := "MATCH RESULTS"
def NAME_MINUTES_FIRST_SESSION : String := "MINUTES FIRST SESSION"
def NAME_MINUTES_FOR_GAME : String := "MINUTES FOR GAME"
def NAME_MINUTES_REST_OF_GAME : String := "MINUTES REST OF GAME"
def NAME_MINUTES_SECOND_SESSION : String := "MINUTES SECOND SESSION"
def NAME_MOVES_FIRST_SESSION : String := "MOVES FIRST SESSION"
def NAME_MOVES_SECOND_SESSION : String := "MOVES SECOND SESSION"
def NAME_OTHER_RESULTS : String := "OTHER RESULTS"
def NAME_PIN1 : String := "PIN1"
def NAME_PIN2 : String := "PIN2"
def NAME_PLAYER_LIST : String := "PLAYER LIST"
def NAME_RESULTS_DATE : String := "RESULTS DATE"
def NAME_RESULTS_DUPLICATED : String := "RESULTS DUPLICATED"
def NAME_RESULTS_OFFICER : String := "RESULTS OFFICER"
def NAME_RESULTS_OFFICER_ADDRESS : String := "RESULTS OFFICER ADDRESS"
def NAME_SECONDS_PER_MOVE : String := "SECONDS PER MOVE"
def NAME_SECTION_RESULTS : String := "SECTION RESULTS"
def NAME_SUBMISSION_INDEX : String := "SUBMISSION INDEX"
def NAME_TABLE_START : String := "TABLE START"
def NAME_TABLE_END : String := "TABLE END"
def NAME_TREASURER_ADDRESS : String := "TREASURER ADDRESS"
def NAME_WHITE_ON : String := "WHITE ON"

def TAG_NAMES : List String :=
  [ADJUDICATED, BOARD, CLUB, COLOUR, COLUMN, COMMENT, COMMENT_LIST,
    COMMENT_PIN, ENVIRONMENT, FINISH, FORENAME, GENDER, INITIALS, NAME, PIN,
    PIN1, PIN2, ROUND, SCORE, SURNAME, TITLE, TREASURER, BCF_CODE, BCF_NO,
    CLUB_CODE, CLUB_COUNTY, CLUB_NAME, DATE_OF_BIRTH, ECF_CODE, ECF_NO,
    EVENT_CODE, EVENT_DATE, EVENT_DETAILS, EVENT_NAME, FIDE_NO,
    FINAL_RESULT_DATE, GAME_DATE, INFORM_FIDE, INFORM_CHESSMOVES,
    INFORM_GRAND_PRIX, INFORM_UNION, MATCH_RESULTS, MINUTES_FIRST_SESSION,
    MINUTES_FOR_GAME, MINUTES_REST_OF_GAME, MINUTES_SECOND_SESSION,
    MOVES_FIRST_SESSION, MOVES_SECOND_SESSION, OTHER_RESULTS, PLAYER_LIST,
    RESULTS_DATE, RESULTS_DUPLICATED, RESULTS_OFFICER,
    RESULTS_OFFICER_ADDRESS, SECONDS_PER_MOVE, SECTION_RESULTS,
    SUBMISSION_INDEX, TABLE_START, TABLE_END, TREASURER_ADDRESS, WHITE_ON]

def STATUS_OK : String := "ok"
def STATUS_IGNORE : String := "ignore"
def STATUS_TABLE_START : String := "table_start"
def STATUS_TABLE_VALUE : String := "table_value"
def STATUS_TABLE_END : String := "table_end"
def STATUS_COLUMN : String := "column"
def TAG_ERROR_UNKNOWN : String := "unknown"
def TAG_ERROR_UNEXPECTED : String := "unexpected"
def TAG_ERROR_TABLE_LAYOUT : String := "layout"

def ORDERED_MANDATORY_EVENT_FIELDS : List String :=
  [EVENT_CODE, SUBMISSION_INDEX, EVENT_NAME, EVENT_DATE, FINAL_RESULT_DATE,
    RESULTS_OFFICER, RESULTS_OFFICER_ADDRESS, TREASURER, TREASURER_ADDRESS]
def MANDATORY_EVENT_FIELDS : List String := ORDERED_MANDATORY_EVENT_FIELDS

def ORDERED_MANDATORY_1_SESSION : List String := [MINUTES_FOR_GAME]
def ORDERED_MANDATORY_2_SESSION : List String :=
  [MOVES_FIRST_SESSION, MINUTES_FIRST_SESSION, MINUTES_REST_OF_GAME]
def ORDERED_MANDATORY_MULTI_SESSION : List String :=
  [MOVES_FIRST_SESSION, MINUTES_FIRST_SESSION, MOVES_SECOND_SESSION,
    MINUTES_SECOND_SESSION]
def ORDERED_MANDATORY_3_SESSION : List String :=
  ORDERED_MANDATORY_MULTI_SESSION ++ [MINUTES_REST_OF_GAME]

/-- `constants.OPTIONAL_EVENT_FIELDS` (a frozenset of a tuple concatenation,
hence deduplicated). -/
def OPTIONAL_EVENT_FIELDS : List String :=
  (ORDERED_MANDATORY_1_SESSION ++ ORDERED_MANDATORY_3_SESSION ++
    [ENVIRONMENT, INFORM_GRAND_PRIX, SECONDS_PER_MOVE] ++
    [ADJUDICATED, INFORM_CHESSMOVES, INFORM_FIDE, INFORM_UNION] ++
    [RESULTS_DUPLICATED]).dedup

def ORDERED_MANDATORY_PIN1_FIELDS : List String := [PIN1, SCORE, PIN2]
def MANDATORY_PIN1_FIELDS : List String := ORDERED_MANDATORY_PIN1_FIELDS

def ALTERNATIVE_NAME_FIELDS : List String := [NAME, SURNAME]
def FORENAME_INITIAL_FIELDS : List String := [FORENAME, INITIALS]

/-! ## `ecfformat/core/expectedfields.py` -/

/-- Context key of an `ExpectedFields` object: the pair
(current part-or-record tag, enclosing part tag or `None`). -/
abbrev EFContext := Option String × Option String

/-- The module-level `expected_fields` dict: the set of field tags legal in
each context, as a duplicate-free list.  Keys not in the source dict
(which would raise `KeyError` in Python, and are never looked up by the
parser) are mapped to the empty set. -/
def expectedFieldsTable (ctx : EFContext) : List String :=
  if ctx = (some EVENT_DETAILS, none) then
    ([PLAYER_LIST, FINISH] ++ MANDATORY_EVENT_FIELDS ++
      OPTIONAL_EVENT_FIELDS).dedup
  else if ctx = (some MATCH_RESULTS, none) ∨ ctx = (some OTHER_RESULTS, none)
      ∨ ctx = (some SECTION_RESULTS, none) then
    ([PIN1, WHITE_ON, RESULTS_DATE] ++ PIN1_SET_TERMINATORS).dedup
  else if ctx = (some PIN1, some MATCH_RESULTS)
      ∨ ctx = (some TABLE_END, some MATCH_RESULTS) then
    (FIELDS_ALLOWED_IN_MATCH ++ PIN1_SET_TERMINATORS).dedup
  else if ctx = (some PIN1, some OTHER_RESULTS)
      ∨ ctx = (some TABLE_END, some OTHER_RESULTS) then
    (FIELDS_ALLOWED_IN_OTHER ++ PIN1_SET_TERMINATORS).dedup
  else if ctx = (some PIN1, some SECTION_RESULTS)
      ∨ ctx = (some TABLE_END, some SECTION_RESULTS) then
    (FIELDS_ALLOWED_IN_SECTION ++ PIN1_SET_TERMINATORS).dedup
  else if ctx = (some FINISH, none) then []
  else if ctx = (some COLUMN, some PLAYER_LIST) ∨ ctx = (some COLUMN, none)
      ∨ ctx = (some COLUMN, some MATCH_RESULTS)
      ∨ ctx = (some COLUMN, some OTHER_RESULTS)
      ∨ ctx = (some COLUMN, some SECTION_RESULTS) then
    [COLUMN, TABLE_START]
  else if ctx = (some TABLE_START, none) then [TABLE_VALUE, TABLE_END]
  else if ctx = (some PLAYER_LIST, none)
      ∨ ctx = (some TABLE_END, some PLAYER_LIST) then
    ([COMMENT, PIN] ++ PIN1_SET_TERMINATORS).dedup
  else if ctx = (some PIN, some PLAYER_LIST) then
    (FIELDS_ALLOWED_IN_PLAYERS ++ PLAYERS_SET_TERMINATORS ++ [COLUMN]).dedup
  else if ctx = (none, none) then [EVENT_DETAILS]
  else []

/-- The module-level `repeatable_fields` dict: empty for every context key
except `(EVENT DETAILS, None)`. -/
def repeatableFieldsTable (ctx : EFContext) : List String :=
  if ctx = (some EVENT_DETAILS, none) then
    [RESULTS_OFFICER_ADDRESS, TREASURER_ADDRESS]
  else []

/-- Which of the three `expectedfields.py` classes a context object was
constructed from (`ExpectedFields`, `EventDetails`, or `TableStart`). -/
inductive EFClass where
  | plain
  | eventDetails
  | tableStart
deriving DecidableEq, Repr

/-- An `ExpectedFields` object (and its `EventDetails`/`TableStart`
subclasses).  The three counters exist only on `EventDetails` instances in
the source; here they are carried (and touched) only when
`efClass = eventDetails`. -/
structure ExpectedFields where
  efClass : EFClass
  expected : List String
  repeatable : List String
  context : EFContext
  timeLimitFieldCount : Nat
  resultsOfficerAddressCount : Nat
  treasurerAddressCount : Nat
deriving DecidableEq, Repr

/-- `ExpectedFields.__init__` (and the subclass constructors): the `found`
argument defaults to the empty set at every parser call site and is
omitted. -/
def mkExpectedFields (cls : EFClass) (ctx : EFContext) : ExpectedFields :=
  { efClass := cls
    expected := expectedFieldsTable ctx
    repeatable := repeatableFieldsTable ctx
    context := ctx
    timeLimitFieldCount := 0
    resultsOfficerAddressCount := 0
    treasurerAddressCount := 0 }

/-- `between_table_start_and_table_end`: class attribute, `True` only on
`TableStart`. -/
def ExpectedFields.betweenTableStartAndTableEnd (s : ExpectedFields) : Bool :=
  s.efClass = EFClass.tableStart

/-- `ExpectedFields.intersection` (of the expected set with a name set),
as a list; its length is the Python set-intersection cardinality. -/
def ExpectedFields.interList (s : ExpectedFields) (names : List String) :
    List String :=
  s.expected.filter (fun n => n ∈ names)

/-- `ExpectedFields.add` with the `EventDetails.add` override (counting
repeated address fields). -/
def ExpectedFields.add (s : ExpectedFields) (name : String) : ExpectedFields :=
  let s' := { s with expected :=
    if name ∈ s.expected then s.expected else name :: s.expected }
  if s'.efClass = EFClass.eventDetails then
    if name = RESULTS_OFFICER_ADDRESS then
      { s' with resultsOfficerAddressCount := s'.resultsOfficerAddressCount + 1 }
    else if name = TREASURER_ADDRESS then
      { s' with treasurerAddressCount := s'.treasurerAddressCount + 1 }
    else s'
  else s'

/-- `ExpectedFields.discard`. -/
def ExpectedFields.discard (s : ExpectedFields) (name : String) :
    ExpectedFields :=
  { s with expected := s.expected.erase name }

/-- `ExpectedFields.remove_expected_field`: `True` and the name removed if
expected, `False` (a format error) otherwise. -/
def ExpectedFields.removeExpectedField (s : ExpectedFields) (name : String) :
    Bool × ExpectedFields :=
  if name ∈ s.expected then (true, { s with expected := s.expected.erase name })
  else (false, s)

/-- `remove_minutes_for_game` with the `EventDetails` override (counter + 2
after the base-class removal and discards succeed). -/
def ExpectedFields.removeMinutesForGame (s : ExpectedFields) (name : String) :
    Bool × ExpectedFields :=
  match s.removeExpectedField name with
  | (false, s₁) => (false, s₁)
  | (true, s₁) =>
      let s₂ := ((((s₁.discard MINUTES_FIRST_SESSION).discard
        MOVES_FIRST_SESSION).discard MINUTES_SECOND_SESSION).discard
        MOVES_SECOND_SESSION).discard MINUTES_REST_OF_GAME
      if s₂.efClass = EFClass.eventDetails then
        (true, { s₂ with timeLimitFieldCount := s₂.timeLimitFieldCount + 2 })
      else (true, s₂)

/-- `remove_minutes_and_moves` with the `EventDetails` override
(counter + 1). -/
def ExpectedFields.removeMinutesAndMoves (s : ExpectedFields) (name : String) :
    Bool × ExpectedFields :=
  match s.removeExpectedField name with
  | (false, s₁) => (false, s₁)
  | (true, s₁) =>
      let s₂ := s₁.discard MINUTES_FOR_GAME
      if s₂.efClass = EFClass.eventDetails then
        (true, { s₂ with timeLimitFieldCount := s₂.timeLimitFieldCount + 1 })
      else (true, s₂)

/-- `remove_minutes_rest_of_game` with the `EventDetails` override
(counter + 2). -/
def ExpectedFields.removeMinutesRestOfGame (s : ExpectedFields)
    (name : String) : Bool × ExpectedFields :=
  match s.removeExpectedField name with
  | (false, s₁) => (false, s₁)
  | (true, s₁) =>
      let s₂ := s₁.discard MINUTES_FOR_GAME
      if s₂.efClass = EFClass.eventDetails then
        (true, { s₂ with timeLimitFieldCount := s₂.timeLimitFieldCount + 2 })
      else (true, s₂)

/-- `validate_event_details_field_combinations`: the base class returns
`True`; `EventDetails` checks the repeatable address fields, the mandatory
event fields, and that the time-limit counter is non-zero and even.  The
two conditional `remove_expected_field` calls mutate the set before the
mandatory-field intersection, exactly as in the source. -/
def ExpectedFields.validateEventDetailsFieldCombinations
    (s : ExpectedFields) : Bool :=
  if s.efClass ≠ EFClass.eventDetails then true
  else
    let r₁ := if s.treasurerAddressCount ≠ 0 then
        s.removeExpectedField TREASURER_ADDRESS
      else (true, s)
    if r₁.1 = false then false
    else
      let r₂ := if r₁.2.resultsOfficerAddressCount ≠ 0 then
          r₁.2.removeExpectedField RESULTS_OFFICER_ADDRESS
        else (true, r₁.2)
      if r₂.1 = false then false
      else if r₂.2.interList MANDATORY_EVENT_FIELDS ≠ [] then false
      else if r₂.2.timeLimitFieldCount = 0 ∨
          r₂.2.timeLimitFieldCount % 2 = 1 then false
      else true

/-- `validate_pin_field_combinations` (base class, used at PIN/PIN1 set
boundaries).  Returns the error classification or `none`. -/
def ExpectedFields.validatePinFieldCombinations (s : ExpectedFields) :
    Option String :=
  if (s.interList ALTERNATIVE_NAME_FIELDS).length ≠ 1 then
    some TAG_ERROR_UNEXPECTED
  else if NAME ∉ s.expected ∧
      (s.interList FORENAME_INITIAL_FIELDS).length ≠
        FORENAME_INITIAL_FIELDS.length then
    some TAG_ERROR_UNEXPECTED
  else if ECF_CODE ∈ s.expected ∧ CLUB_CODE ∈ s.expected then
    some TAG_ERROR_UNEXPECTED
  else if CLUB_CODE ∈ s.expected ∧
      (CLUB_NAME ∉ s.expected ∨ CLUB_COUNTY ∉ s.expected) then
    some TAG_ERROR_UNEXPECTED
  else none

/-! ## `ecfformat/core/table.py` -/

/-- `table.fields_allowed_in_table` (a dict keyed by the four table
types). -/
def fieldsAllowedInTable (t : String) : List String :=
  if t = OTHER_RESULTS then FIELDS_ALLOWED_IN_OTHER
  else if t = MATCH_RESULTS then FIELDS_ALLOWED_IN_MATCH
  else if t = SECTION_RESULTS then FIELDS_ALLOWED_IN_SECTION
  else if t = PLAYER_LIST then FIELDS_ALLOWED_IN_PLAYERS
  else []

/-- `table.field_name_as_value_to_name`: remap a COMMENT column to the
record-scoped comment tag. -/
def fieldNameAsValueToName (replaced name : String) : String :=
  if replaced = PIN1 ∧ name = COMMENT then COMMENT_PIN
  else if replaced = PIN ∧ name = COMMENT then COMMENT_LIST
  else name

/-- The `Table` class data. -/
structure Table where
  replacedName : String
  tableType : String
  allowedFields : List String
  columnNames : List String
  values : List String
  brokenColumnDefinition : Bool
deriving DecidableEq, Repr

/-- `Table.__init__`: `none` models the `ReplaceFieldsetError` /
`ReplacePartError` exceptions for invalid arguments. -/
def Table.make (replacedName variantName : String) : Option Table :=
  if replacedName ∉ SUBPART_TAGS then none
  else if variantName ∉ TABLE_TYPES then none
  else some
    { replacedName := replacedName
      tableType := variantName
      allowedFields := fieldsAllowedInTable variantName
      columnNames := []
      values := []
      brokenColumnDefinition := false }

/-- `Table.set_column_definition_is_broken`. -/
def Table.setColumnDefinitionIsBroken (t : Table) : Table :=
  { t with brokenColumnDefinition := true }

/-- `Table._remove_allowed_field`. -/
def Table.removeAllowedField (t : Table) (name : String) : Bool × Table :=
  if name ∈ t.allowedFields then
    (true, { t with allowedFields := t.allowedFields.erase name })
  else (false, t)

/-- `Table.add_column_name`: append the name if it is still in the allowed
set. -/
def Table.addColumnName (t : Table) (name : String) : Bool × Table :=
  match t.removeAllowedField name with
  | (true, t₁) => (true, { t₁ with columnNames := t₁.columnNames ++ [name] })
  | (false, t₁) => (false, t₁)

/-- `Table.add_value` (newlines stripped from both ends). -/
def Table.addValue (t : Table) (value : String) : Table :=
  { t with values := t.values ++ [pyStripNewline value] }

/-- `Table.get_key_for_context_at_end_table`. -/
def Table.getKeyForContextAtEndTable (t : Table) : EFContext :=
  (some t.replacedName, some t.tableType)

/-- A field produced by the table code: `[name_or_None, value_or_None]`
pairs in the source. -/
abbrev TableField := Option String × Option String

/-- The value-grouping loop of `Table.get_table_fields`: collect values in
groups of `n`, emitting a (possibly short) final group. -/
def chunkAux (n : Nat) (acc : List String) : List String → List (List String)
  | [] => if acc = [] then [] else [acc]
  | v :: vs =>
      let acc' := acc ++ [v]
      if acc'.length < n then chunkAux n acc' vs
      else [acc'] ++ chunkAux n [] vs

def chunkValues (n : Nat) (l : List String) : List (List String) :=
  chunkAux n [] l

/-- `Table.get_table_fields`: the verbatim COLUMN / TABLE START / joined
value rows / TABLE END form of the table. -/
def Table.getTableFields (t : Table) : List TableField :=
  let colFields : List TableField :=
    t.columnNames.map (fun name => (some COLUMN, some name))
  if t.values = [] then colFields
  else
    colFields ++ [((some TABLE_START : Option String), (none : Option String))]
      ++ (chunkValues t.columnNames.length t.values).map
        (fun c => ((none : Option String), some (joinHash c)))
      ++ [((some TABLE_END : Option String), (none : Option String))]

/-- Python-dict insertion-order update: replace the value of an existing
key in place, or append a new key. -/
def dictSet (d : List (String × String)) (k v : String) :
    List (String × String) :=
  if (d.lookup k).isSome then
    d.map (fun p => if p.1 = k then (k, v) else p)
  else d ++ [(k, v)]

/-- The `for name in column_names[1:]` loop of the emission step: a
`(column, value)` pair per remaining column, COMMENT remapped; `none`
models a `KeyError` on a missing dict key. -/
def translateEmitRest (replaced : String)
    (fieldset : List (String × String)) : List String →
    Option (List TableField)
  | [] => some []
  | name :: names =>
      match fieldset.lookup name with
      | none => none
      | some v =>
          match translateEmitRest replaced fieldset names with
          | none => none
          | some rest =>
              some ((some (fieldNameAsValueToName replaced name), some v)
                :: rest)

/-- The emission step of `translate_table_to_name_value_pairs`: one
`(replaced_name, value)` pair then `(column, value)` pairs for the
remaining (reordered) columns, COMMENT remapped.  `none` models a
`KeyError` on a missing dict key. -/
def translateEmit (replaced : String) (cols : List String)
    (fieldset : List (String × String)) : Option (List TableField) :=
  match fieldset.lookup replaced with
  | none => none
  | some v₀ =>
      match translateEmitRest replaced fieldset (cols.drop 1) with
      | none => none
      | some rest => some ((some replaced, some v₀) :: rest)

/-- The value loop of `translate_table_to_name_value_pairs`: assign each
value to the column at position `serial % len(cols)` of the reordered
column list, flushing a group whenever the dict reaches the column
count. -/
def translateLoop (replaced : String) (cols : List String) :
    List String → List (String × String) → Nat → Option (List TableField)
  | [], _, _ => some []
  | v :: vs, fieldset, serial =>
      let key := cols.getD (serial % cols.length) ""
      let fieldset' := dictSet fieldset key v
      if fieldset'.length < cols.length then
        translateLoop replaced cols vs fieldset' (serial + 1)
      else
        match translateEmit replaced cols fieldset' with
        | none => none
        | some emitted =>
            match translateLoop replaced cols vs [] (serial + 1) with
            | none => none
            | some rest => some (emitted ++ rest)

/-- `column_names.insert(0, column_names.pop(column_names.index(r)))`:
move the first occurrence of the replaced-record name to the front. -/
def moveReplacedToFront (replaced : String) (cols : List String) :
    List String :=
  replaced :: cols.erase replaced

/-- `Table.translate_table_to_name_value_pairs`.  `none` models the
unhandled exceptions: `ZeroDivisionError` when there are no columns (and
the table is not already broken), and `ValueError` from `list.index` when
the replaced-record name was never declared as a column. -/
def Table.translateTableToNameValuePairs (t : Table) :
    Option (List TableField) :=
  if t.brokenColumnDefinition then some t.getTableFields
  else if t.columnNames.length = 0 then none
  else if t.values.length % t.columnNames.length ≠ 0 then
    some t.getTableFields
  else if t.replacedName ∉ t.columnNames then none
  else
    translateLoop t.replacedName
      (moveReplacedToFront t.replacedName t.columnNames) t.values [] 0

/-! ## `ecfformat/core/fields.py` — `Fields.append_table` and `error_tag` -/

/-- `Fields.append_table`: derive the status every inserted field of the
table carries (`TAG_ERROR_TABLE_LAYOUT` when the value count is not an
exact multiple of the column count, or the column definition is broken —
a `ZeroDivisionError` for zero columns marks the table broken), then
translate.  `none` propagates an unhandled exception from the
translation. -/
def appendTableCompute (t : Table) :
    Option (String × List TableField × Table) :=
  let t₁ := if t.columnNames.length = 0 then t.setColumnDefinitionIsBroken
    else t
  let status := if t₁.brokenColumnDefinition then TAG_ERROR_TABLE_LAYOUT
    else if t₁.values.length % t₁.columnNames.length ≠ 0 then
      TAG_ERROR_TABLE_LAYOUT
    else STATUS_OK
  match t₁.translateTableToNameValuePairs with
  | none => none
  | some pairs => some (status, pairs, t₁)

/-! ## `ecfformat/core/parser.py` -/

/-- `parser.no_whitespace_name_to_short_tag_name`. -/
def noWhitespaceNameToShortTagName : List (String × String) :=
  [("EVENTDETAILS", EVENT_DETAILS), ("MATCHRESULTS", MATCH_RESULTS),
    ("OTHERRESULTS", OTHER_RESULTS), ("PLAYERLIST", PLAYER_LIST),
    ("SECTIONRESULTS", SECTION_RESULTS), (NAME_PIN1, PIN1),
    (NAME_PIN2, PIN2)]

/-- `parser.record_type_name_to_short_tag_name`. -/
def recordTypeNameToShortTagName : List (String × String) :=
  [(NAME_MATCH_RESULTS, MATCH_RESULTS), (NAME_OTHER_RESULTS, OTHER_RESULTS),
    (NAME_PLAYER_LIST, PLAYER_LIST), (NAME_SECTION_RESULTS, SECTION_RESULTS)]

/-- `parser.column_name_to_short_tag_name`. -/
def columnNameToShortTagName : List (String × String) :=
  [(NAME_MATCH_RESULTS, MATCH_RESULTS), (NAME_OTHER_RESULTS, OTHER_RESULTS),
    (NAME_PLAYER_LIST, PLAYER_LIST), (NAME_SECTION_RESULTS, SECTION_RESULTS),
    (NAME_PIN1, PIN1), (NAME_PIN2, PIN2), (NAME_GAME_DATE, GAME_DATE),
    (NAME_ECF_CODE, ECF_CODE), (NAME_DATE_OF_BIRTH, DATE_OF_BIRTH),
    (NAME_CLUB_CODE, CLUB_CODE), (NAME_CLUB_NAME, CLUB_NAME),
    (NAME_CLUB_COUNTY, CLUB_COUNTY), (NAME_ECF_NO, ECF_NO),
    (NAME_FIDE_NO, FIDE_NO), (NAME_BCF_CODE, BCF_CODE),
    (NAME_BCF_NO, BCF_NO)]

/-- `fields.tag_to_name`: short tag to displayed field name. -/
def tagToName : List (String × String) :=
  [(BCF_CODE, NAME_BCF_CODE), (BCF_NO, NAME_BCF_NO),
    (CLUB_CODE, NAME_CLUB_CODE), (CLUB_COUNTY, NAME_CLUB_COUNTY),
    (CLUB_NAME, NAME_CLUB_NAME), (COMMENT_LIST, NAME_COMMENT),
    (COMMENT_PIN, NAME_COMMENT), (DATE_OF_BIRTH, NAME_DATE_OF_BIRTH),
    (ECF_CODE, NAME_ECF_CODE), (ECF_NO, NAME_ECF_NO),
    (EVENT_CODE, NAME_EVENT_CODE), (EVENT_DATE, NAME_EVENT_DATE),
    (EVENT_DETAILS, NAME_EVENT_DETAILS), (EVENT_NAME, NAME_EVENT_NAME),
    (FIDE_NO, NAME_FIDE_NO), (FINAL_RESULT_DATE, NAME_FINAL_RESULT_DATE),
    (GAME_DATE, NAME_GAME_DATE), (INFORM_FIDE, NAME_INFORM_FIDE),
    (INFORM_CHESSMOVES, NAME_INFORM_CHESSMOVES),
    (INFORM_GRAND_PRIX, NAME_INFORM_GRAND_PRIX),
    (INFORM_UNION, NAME_INFORM_UNION), (MATCH_RESULTS, NAME_MATCH_RESULTS),
    (MINUTES_FIRST_SESSION, NAME_MINUTES_FIRST_SESSION),
    (MINUTES_FOR_GAME, NAME_MINUTES_FOR_GAME),
    (MINUTES_REST_OF_GAME, NAME_MINUTES_REST_OF_GAME),
    (MINUTES_SECOND_SESSION, NAME_MINUTES_SECOND_SESSION),
    (MOVES_FIRST_SESSION, NAME_MOVES_FIRST_SESSION),
    (MOVES_SECOND_SESSION, NAME_MOVES_SECOND_SESSION),
    (OTHER_RESULTS, NAME_OTHER_RESULTS), (PLAYER_LIST, NAME_PLAYER_LIST),
    (PIN1, NAME_PIN1), (PIN2, NAME_PIN2), (RESULTS_DATE, NAME_RESULTS_DATE),
    (RESULTS_DUPLICATED, NAME_RESULTS_DUPLICATED),
    (RESULTS_OFFICER, NAME_RESULTS_OFFICER),
    (RESULTS_OFFICER_ADDRESS, NAME_RESULTS_OFFICER_ADDRESS),
    (SECONDS_PER_MOVE, NAME_SECONDS_PER_MOVE),
    (SECTION_RESULTS, NAME_SECTION_RESULTS),
    (SUBMISSION_INDEX, NAME_SUBMISSION_INDEX),
    (TABLE_START, NAME_TABLE_START), (TABLE_END, NAME_TABLE_END),
    (TREASURER_ADDRESS, NAME_TREASURER_ADDRESS), (WHITE_ON, NAME_WHITE_ON)]

/-- The displayed text inserted for a field name tag
(`tag_to_name.get(name, name)` in `insert_and_tag_name_value_into_document`). -/
def displayOf (name : String) : String := (tagToName.lookup name).getD name

/-- `fields.SUFFIX_INCREMENT_NAMES` = `PART_TAGS | SUBPART_TAGS`. -/
def SUFFIX_INCREMENT_NAMES : List String := (PART_TAGS ++ SUBPART_TAGS).dedup

/-- `Parser._pick_comment_tag`'s `playerlistparts` =
`SUFFIX_INCREMENT_NAMES - {PLAYER_LIST, PIN}`. -/
def playerlistparts : List String :=
  (SUFFIX_INCREMENT_NAMES.erase PLAYER_LIST).erase PIN

/-- `Parser._pick_comment_tag`: scan the inserted field-name ranges, most
recent first; skip ranges with no part/subpart name tag; on the first
range carrying one, intersect with `playerlistparts` and pick the comment
variant.  A history entry is (name tag, displayed text). -/
def pickCommentGo (tag : String) : List (String × String) → String
  | [] => tag
  | (nameTag, _) :: rest =>
      if nameTag ∉ SUFFIX_INCREMENT_NAMES then pickCommentGo tag rest
      else
        let inter := [nameTag].filter (fun n => n ∈ playerlistparts)
        if inter = [] ∨ inter.length ≠ 1 then tag
        else if PIN ∈ inter then COMMENT_PIN
        else if PLAYER_LIST ∈ inter then COMMENT_LIST
        else tag

def pickCommentTag (tag : String) (history : List (String × String)) :
    String :=
  if tag ≠ COMMENT then tag else pickCommentGo tag history

/-- `Parser._get_table_type`: scan the inserted field names backwards for
the most recent part name in `TABLE_TYPES` (displayed text uppercased and
mapped through `record_type_name_to_short_tag_name`). -/
def getTableType : List (String × String) → Option String
  | [] => none
  | (_, displayText) :: rest =>
      let fieldname := pyUpper displayText
      let fieldname := (recordTypeNameToShortTagName.lookup fieldname).getD
        fieldname
      if fieldname ∉ TABLE_TYPES then getTableType rest
      else some fieldname

/-- The result of `Parser._split_match`: (name, value, tag). -/
structure SplitRes where
  name : String
  value : Option String
  tag : String
deriving DecidableEq, Repr

/-- `Parser._split_match` on one field body (the matched text without its
leading `#`). -/
def splitMatch (betweenTable : Bool) (history : List (String × String))
    (body : String) : SplitRes :=
  let br := breakAtEq body.data
  let nv : String × Option String :=
    match br.2 with
    | none =>
        if betweenTable ∧ removeWsUpper body ≠ TABLE_END then
          (TABLE_VALUE, some (pyStrip body))
        else (pyStrip body, none)
    | some vChars =>
        (pyStrip (String.mk br.1), some (pyStrip (String.mk vChars)))
  let tag := removeWsUpper nv.1
  let tag := (noWhitespaceNameToShortTagName.lookup tag).getD
    (pickCommentTag tag history)
  { name := nv.1, value := nv.2, tag := tag }

/-- The per-field handlers of `Parser._switch`, `_switch_columns` and
`_switch_values` (bound methods in the source). -/
inductive FieldHandler where
  | ignoreField
  | removeField
  | resultsOfficerAddressH
  | treasurerAddressH
  | removeClubNameAndAliases
  | removeEcfCodeAndAliases
  | removeEcfNoAndAliases
  | removeMinutesForGameH
  | minutesAndMoves
  | minutesRestOfGameH
  | eventDetailsH
  | playerListH
  | pinH
  | matchResultsH
  | otherResultsH
  | sectionResultsH
  | pin1InMatch
  | pin1InOther
  | pin1InSection
  | finishH
  | tableColumnH
  | tableStartH
  | tableValueH
  | tableEndH
  | unknownNameH
  | addTableLayoutH
deriving DecidableEq, Repr

/-- Which switch dict the driver is currently dispatching through:
`self._switch`, `self._switch_columns` or `self._switch_values`. -/
inductive PMode where
  | main
  | columns
  | values
deriving DecidableEq, Repr

/-- The mutable state of a `Parser` during `parse`: the live expected-field
context, the live table accumulator, the current switch, the current
binding of `self._switch[PIN1]` (rebound by the `*_results` handlers), and
the inserted field-name ranges of the host text widget as (name tag,
displayed text) pairs, most recent first. -/
structure PState where
  expected : ExpectedFields
  table : Option Table
  mode : PMode
  pin1Handler : FieldHandler
  history : List (String × String)
deriving DecidableEq, Repr

/-- Push one inserted field name onto the recorded widget history. -/
def pushName (history : List (String × String)) (name : String) :
    List (String × String) :=
  (name, displayOf name) :: history

/-- History effect of `Fields.append_table`: every pair with a non-empty
name is inserted as a field name (pairs with name `None` insert only a
value). -/
def pushTableFields (history : List (String × String))
    (pairs : List TableField) : List (String × String) :=
  pairs.foldl (fun h p =>
    match p.1 with
    | some n => if n = "" then h else pushName h n
    | none => h) history

/-- Outcome of one handler call: a status with the updated parser state, a
raised `FieldTooLongError` (caught by the driver), or an unhandled
exception. -/
inductive HandlerOut where
  | ret (s : PState) (status : String)
  | tooLong (msg : String)
  | crash
deriving DecidableEq, Repr

/-- The `FieldTooLongError` message for an overlong value. -/
def valueTooLongMsg (n : Nat) : String :=
  "Value length '" ++ toString n ++
    "' too long: is file an ECF results submission file?"

/-- The `FieldTooLongError` message for an overlong name: the name is
truncated to 20 characters plus an ellipsis, the reported length is taken
after truncation, and the message is built by `name.join` over four
pieces, so the truncated name appears at all three separator positions,
as in the source. -/
def nameTooLongMsg (name : String) : String :=
  let name := if name.data.length > 20 then pyTake name 20 ++ "..." else name
  "Field name '" ++ name ++ "' too long (" ++ name ++
    toString name.data.length ++ name ++
    "): is file an ECF results submission file?"

/-- `Parser._validate_pin1_field` (result discarded at every call site). -/
def validatePin1Field (e : ExpectedFields) : String :=
  if e.interList MANDATORY_PIN1_FIELDS ≠ [] then TAG_ERROR_UNEXPECTED
  else STATUS_OK

/-- `Parser._validate_event_details_field_combinations` (result discarded
at every call site). -/
def validateEventDetailsParser (e : ExpectedFields) : String :=
  if e.validateEventDetailsFieldCombinations then STATUS_OK
  else TAG_ERROR_UNEXPECTED

/-- One handler call (`self._switch[...]` / fallback method bodies).
`tag` is the tag passed as the handler's `name` argument; `value` is the
field's value. -/
def applyHandler (h : FieldHandler) (s : PState) (tag : String)
    (value : Option String) : HandlerOut :=
  match h with
  | .ignoreField => .ret s STATUS_IGNORE
  | .removeField =>
      let r := s.expected.removeExpectedField tag
      if r.1 then .ret { s with expected := r.2 } STATUS_OK
      else .ret { s with expected := r.2 } TAG_ERROR_UNEXPECTED
  | .resultsOfficerAddressH =>
      let r := s.expected.removeExpectedField tag
      if r.1 then .ret { s with expected := r.2.add tag } STATUS_OK
      else .ret { s with expected := r.2 } TAG_ERROR_UNEXPECTED
  | .treasurerAddressH =>
      let r := s.expected.removeExpectedField tag
      if r.1 then .ret { s with expected := r.2.add tag } STATUS_OK
      else .ret { s with expected := r.2 } TAG_ERROR_UNEXPECTED
  | .removeClubNameAndAliases =>
      let r := s.expected.removeExpectedField tag
      if r.1 then
        if tag = CLUB_NAME then
          .ret { s with expected := r.2.discard CLUB } STATUS_OK
        else .ret { s with expected := r.2.discard CLUB_NAME } STATUS_OK
      else .ret { s with expected := r.2 } TAG_ERROR_UNEXPECTED
  | .removeEcfCodeAndAliases =>
      let r := s.expected.removeExpectedField tag
      if r.1 then
        if tag = ECF_CODE then
          .ret { s with expected := r.2.discard BCF_CODE } STATUS_OK
        else .ret { s with expected := r.2.discard ECF_CODE } STATUS_OK
      else .ret { s with expected := r.2 } TAG_ERROR_UNEXPECTED
  | .removeEcfNoAndAliases =>
      let r := s.expected.removeExpectedField tag
      if r.1 then
        if tag = ECF_NO then
          .ret { s with expected := r.2.discard BCF_NO } STATUS_OK
        else .ret { s with expected := r.2.discard ECF_NO } STATUS_OK
      else .ret { s with expected := r.2 } TAG_ERROR_UNEXPECTED
  | .removeMinutesForGameH =>
      let r := s.expected.removeMinutesForGame tag
      if r.1 then .ret { s with expected := r.2 } STATUS_OK
      else .ret { s with expected := r.2 } TAG_ERROR_UNEXPECTED
  | .minutesAndMoves =>
      let r := s.expected.removeMinutesAndMoves tag
      if r.1 then .ret { s with expected := r.2 } STATUS_OK
      else .ret { s with expected := r.2 } TAG_ERROR_UNEXPECTED
  | .minutesRestOfGameH =>
      let r := s.expected.removeMinutesRestOfGame tag
      if r.1 then .ret { s with expected := r.2 } STATUS_OK
      else .ret { s with expected := r.2 } TAG_ERROR_UNEXPECTED
  | .eventDetailsH =>
      let r := s.expected.removeExpectedField tag
      if r.1 = false then .ret { s with expected := r.2 } TAG_ERROR_UNEXPECTED
      else
        let e := mkExpectedFields EFClass.eventDetails (some tag, none)
        .ret { s with expected := e } STATUS_OK
  | .playerListH =>
      let r := s.expected.removeExpectedField tag
      if r.1 = false then .ret { s with expected := r.2 } TAG_ERROR_UNEXPECTED
      else
        let _ := validateEventDetailsParser r.2
        let e := mkExpectedFields EFClass.plain (some tag, none)
        .ret { s with expected := e } STATUS_OK
  | .pinH =>
      let r := s.expected.removeExpectedField tag
      if r.1 = false then .ret { s with expected := r.2 } TAG_ERROR_UNEXPECTED
      else
        let _ := r.2.validatePinFieldCombinations
        let e := mkExpectedFields EFClass.plain (some tag, some PLAYER_LIST)
        .ret { s with expected := e } STATUS_OK
  | .matchResultsH =>
      let r := s.expected.removeExpectedField tag
      if r.1 = false then .ret { s with expected := r.2 } TAG_ERROR_UNEXPECTED
      else
        let _ := r.2.validatePinFieldCombinations
        let _ := validatePin1Field r.2
        .ret { s with
          expected := mkExpectedFields EFClass.plain (some tag, none)
          pin1Handler := .pin1InMatch } STATUS_OK
  | .otherResultsH =>
      let r := s.expected.removeExpectedField tag
      if r.1 = false then .ret { s with expected := r.2 } TAG_ERROR_UNEXPECTED
      else
        let _ := r.2.validatePinFieldCombinations
        let _ := validatePin1Field r.2
        .ret { s with
          expected := mkExpectedFields EFClass.plain (some tag, none)
          pin1Handler := .pin1InOther } STATUS_OK
  | .sectionResultsH =>
      let r := s.expected.removeExpectedField tag
      if r.1 = false then .ret { s with expected := r.2 } TAG_ERROR_UNEXPECTED
      else
        let _ := r.2.validatePinFieldCombinations
        let _ := validatePin1Field r.2
        .ret { s with
          expected := mkExpectedFields EFClass.plain (some tag, none)
          pin1Handler := .pin1InSection } STATUS_OK
  | .pin1InMatch =>
      let r := s.expected.removeExpectedField tag
      if r.1 = false then .ret { s with expected := r.2 } TAG_ERROR_UNEXPECTED
      else
        let _ := validatePin1Field r.2
        let e := mkExpectedFields EFClass.plain (some tag, some MATCH_RESULTS)
        .ret { s with expected := e } STATUS_OK
  | .pin1InOther =>
      let r := s.expected.removeExpectedField tag
      if r.1 = false then .ret { s with expected := r.2 } TAG_ERROR_UNEXPECTED
      else
        let _ := validatePin1Field r.2
        let e := mkExpectedFields EFClass.plain (some tag, some OTHER_RESULTS)
        .ret { s with expected := e } STATUS_OK
  | .pin1InSection =>
      let r := s.expected.removeExpectedField tag
      if r.1 = false then .ret { s with expected := r.2 } TAG_ERROR_UNEXPECTED
      else
        let _ := validatePin1Field r.2
        let e := mkExpectedFields EFClass.plain (some tag, some SECTION_RESULTS)
        .ret { s with expected := e } STATUS_OK
  | .finishH =>
      let _ := if PLAYER_LIST ∈ s.expected.expected then
          some (validateEventDetailsParser s.expected)
        else none
      let _ := s.expected.validatePinFieldCombinations
      let _ := validatePin1Field s.expected
      let e := mkExpectedFields EFClass.plain (some tag, none)
      .ret { s with expected := e } STATUS_OK
  | .tableColumnH =>
      let r := s.expected.removeExpectedField tag
      if r.1 = false then .ret { s with expected := r.2 } TAG_ERROR_UNEXPECTED
      else
        let _ := r.2.validatePinFieldCombinations
        let _ := validatePin1Field r.2
        let s₁ : PState := { s with expected := r.2 }
        let tbl? : Option (Option Table) :=
          match s₁.table with
          | some tb => some (some tb)
          | none =>
              let inter := r.2.interList SUBPART_TAGS
              if inter = [] then none
              else if inter.length = SUBPART_TAGS.length then none
              else
                -- exactly one of PIN, PIN1 remains expected here
                let replaced := if PIN ∈ r.2.expected then PIN else PIN1
                match getTableType s₁.history with
                | none => none
                | some tt =>
                    match Table.make replaced tt with
                    | none => some none   -- constructor exception
                    | some tb => some (some tb)
        match tbl? with
        | none => .ret s₁ TAG_ERROR_UNEXPECTED
        | some none => .crash
        | some (some tb) =>
            match value with
            | none => .crash   -- None.upper()
            | some v =>
                let v := pyUpper v
                let colName := (columnNameToShortTagName.lookup v).getD v
                let ra := tb.addColumnName colName
                if ra.1 = false then
                  .ret { s₁ with table := some ra.2 } TAG_ERROR_UNEXPECTED
                else
                  let e := mkExpectedFields EFClass.plain (some tag, none)
                  .ret { s₁ with table := some ra.2, expected := e }
                    STATUS_COLUMN
  | .tableStartH =>
      let r := s.expected.removeExpectedField tag
      if r.1 = false then .ret { s with expected := r.2 } TAG_ERROR_UNEXPECTED
      else
        let e := mkExpectedFields EFClass.tableStart (some tag, none)
        .ret { s with expected := e } STATUS_TABLE_START
  | .tableValueH => .ret s STATUS_TABLE_VALUE
  | .tableEndH =>
      let r := s.expected.removeExpectedField tag
      if r.1 = false then .ret { s with expected := r.2 } TAG_ERROR_UNEXPECTED
      else
        match s.table with
        | none => .crash   -- self._table is None
        | some tb =>
            let key := tb.getKeyForContextAtEndTable
            let e₁ := mkExpectedFields EFClass.plain key
            match appendTableCompute tb with
            | none => .crash
            | some (_, pairs, tb') =>
                let e₂ := mkExpectedFields e₁.efClass e₁.context
                let h₂ := pushTableFields s.history pairs
                .ret { s with expected := e₂, table := some tb', history := h₂ }
                  STATUS_TABLE_END
  | .unknownNameH =>
      match value with
      | some v =>
          if v.data.length > 100 then .tooLong (valueTooLongMsg v.data.length)
          else if tag.data.length > 40 then .tooLong (nameTooLongMsg tag)
          else .ret s TAG_ERROR_UNKNOWN
      | none =>
          if tag.data.length > 40 then .tooLong (nameTooLongMsg tag)
          else .ret s TAG_ERROR_UNKNOWN
  | .addTableLayoutH =>
      match s.table with
      | none => .crash
      | some tb =>
          let s₁ := { s with table := some tb.setColumnDefinitionIsBroken }
          if tag ∈ TAG_NAMES then .ret s₁ TAG_ERROR_UNEXPECTED
          else .ret s₁ TAG_ERROR_UNKNOWN

/-- `parser._switch` without its `PIN1` entry, which is mutable and lives
in `PState.pin1Handler` (initially `self._remove_field`, rebound by the
`*_results` handlers). -/
def switchMain : List (String × FieldHandler) :=
  [(TABLE_VALUE, .ignoreField), (ADJUDICATED, .removeField),
    (BCF_CODE, .removeEcfCodeAndAliases), (BCF_NO, .removeEcfNoAndAliases),
    (BOARD, .removeField), (CLUB, .removeClubNameAndAliases),
    (CLUB_CODE, .removeField), (CLUB_COUNTY, .removeField),
    (CLUB_NAME, .removeClubNameAndAliases), (COLOUR, .removeField),
    (COLUMN, .tableColumnH), (COMMENT, .removeField),
    (COMMENT_LIST, .removeField), (COMMENT_PIN, .removeField),
    (DATE_OF_BIRTH, .removeField), (ECF_CODE, .removeEcfCodeAndAliases),
    (ECF_NO, .removeEcfNoAndAliases), (ENVIRONMENT, .removeField),
    (EVENT_CODE, .removeField), (EVENT_DATE, .removeField),
    (EVENT_DETAILS, .eventDetailsH), (EVENT_NAME, .removeField),
    (FIDE_NO, .removeField), (FINAL_RESULT_DATE, .removeField),
    (FINISH, .finishH), (FORENAME, .removeField), (GAME_DATE, .removeField),
    (GENDER, .removeField), (INFORM_FIDE, .removeField),
    (INFORM_CHESSMOVES, .removeField), (INFORM_GRAND_PRIX, .removeField),
    (INFORM_UNION, .removeField), (INITIALS, .removeField),
    (MATCH_RESULTS, .matchResultsH),
    (MINUTES_FIRST_SESSION, .minutesAndMoves),
    (MINUTES_FOR_GAME, .removeMinutesForGameH),
    (MINUTES_REST_OF_GAME, .minutesRestOfGameH),
    (MINUTES_SECOND_SESSION, .minutesAndMoves),
    (MOVES_FIRST_SESSION, .minutesAndMoves),
    (MOVES_SECOND_SESSION, .minutesAndMoves), (NAME, .removeField),
    (OTHER_RESULTS, .otherResultsH), (PIN, .pinH), (PIN2, .removeField),
    (PLAYER_LIST, .playerListH), (RESULTS_DATE, .removeField),
    (RESULTS_DUPLICATED, .removeField), (RESULTS_OFFICER, .removeField),
    (RESULTS_OFFICER_ADDRESS, .resultsOfficerAddressH),
    (ROUND, .removeField), (SCORE, .removeField),
    (SECONDS_PER_MOVE, .removeField), (SECTION_RESULTS, .sectionResultsH),
    (SUBMISSION_INDEX, .removeField), (SURNAME, .removeField),
    (TABLE_START, .tableStartH), (TABLE_END, .tableEndH),
    (TITLE, .removeField), (TREASURER, .removeField),
    (TREASURER_ADDRESS, .treasurerAddressH), (WHITE_ON, .removeField)]

/-- `parser._switch_columns`. -/
def switchColumns : List (String × FieldHandler) :=
  [(TABLE_VALUE, .ignoreField), (COLUMN, .tableColumnH),
    (TABLE_START, .tableStartH)]

/-- `parser._switch_values`. -/
def switchValues : List (String × FieldHandler) :=
  [(TABLE_VALUE, .tableValueH), (TABLE_END, .tableEndH)]

/-- `switch.get(tag, unknown)`: dispatch through the current switch dict
with its mode-specific fallback handler. -/
def dispatch (s : PState) (tag : String) : FieldHandler :=
  match s.mode with
  | .main =>
      if tag = PIN1 then s.pin1Handler
      else (switchMain.lookup tag).getD .unknownNameH
  | .columns => (switchColumns.lookup tag).getD .addTableLayoutH
  | .values => (switchValues.lookup tag).getD .tableValueH

/-- One classified field, as produced by the driver for each consumed
field. -/
structure FieldOut where
  name : String
  value : Option String
  tag : String
  status : String
deriving DecidableEq, Repr

/-- Outcome of the driver loop body on one field. -/
inductive LoopOut where
  | stop
  | cont (s : PState) (out : FieldOut)
  | abort (msg : String)
  | crash
deriving DecidableEq, Repr

/-- The status of the field classified by a continuing loop step. -/
def LoopOut.contStatus : LoopOut → Option String
  | .cont _ out => some out.status
  | _ => none

/-- `Parser._add_non_ecf_format_field`: flush a pending (broken) table,
insert the offending field, and rebuild the live expected-field context
for the same class and key.  `none` propagates an exception from the table
flush. -/
def addNonEcfFormatField (s : PState) (insertedName : String) :
    Option PState :=
  match s.table with
  | none =>
      let s := { s with history := pushName s.history insertedName }
      let e := mkExpectedFields s.expected.efClass s.expected.context
      some { s with expected := e }
  | some tb =>
      match appendTableCompute tb with
      | none => none
      | some (_, pairs, tb') =>
          let s := { s with
            table := some { tb' with columnNames := [] }
            history := pushTableFields s.history pairs }
          let s := { s with history := pushName s.history insertedName }
          let e := mkExpectedFields s.expected.efClass s.expected.context
          some { s with expected := e }

/-- The driver-loop body of `Parser._process_matches_after_first_field`
after `_split_match`: the stop check, the handler call, and the per-status
processing (insertions, switch changes, table value collection, error
recovery).  `body` is the raw matched text the driver feeds to
`Table.add_value` on a table-value status. -/
def processTagged (stopAt : Option String) (s : PState) (body : String)
    (r : SplitRes) : LoopOut :=
  if some r.tag = stopAt ∧ r.tag ∈ PARSE_STOP_AT_FIELDS then .stop
  else
    match applyHandler (dispatch s r.tag) s r.tag r.value with
    | .tooLong msg => .abort msg
    | .crash => .crash
    | .ret s₁ status =>
        let out : FieldOut :=
          { name := r.name, value := r.value, tag := r.tag, status := status }
        if status = STATUS_OK then
          .cont { s₁ with history := pushName s₁.history r.tag } out
        else if status = STATUS_IGNORE then .cont s₁ out
        else if status = STATUS_COLUMN then
          .cont { s₁ with mode := .columns } out
        else if status = STATUS_TABLE_START then
          .cont { s₁ with mode := .values } out
        else if status = STATUS_TABLE_VALUE then
          match s₁.table with
          | none => .crash
          | some tb =>
              .cont { s₁ with table := some (tb.addValue body), mode := .values } out
        else if status = STATUS_TABLE_END then
          .cont { s₁ with table := none, mode := .main } out
        else if status = TAG_ERROR_UNEXPECTED ∨ status = TAG_ERROR_UNKNOWN
            then
          let insertedName :=
            if status = TAG_ERROR_UNKNOWN then r.name else r.tag
          match addNonEcfFormatField s₁ insertedName with
          | none => .crash
          | some s₂ => .cont s₂ out
        else .crash   -- FieldStatusError

/-- One driver-loop step on a raw field body: split, then process. -/
def processField (stopAt : Option String) (s : PState) (body : String) :
    LoopOut :=
  processTagged stopAt s body
    (splitMatch s.expected.betweenTableStartAndTableEnd s.history body)

/-- Result of running the driver loop. -/
structure RunResult where
  outputs : List FieldOut
  state : PState
  message : Option String
  crashed : Bool
deriving DecidableEq, Repr

/-- `Parser._process_matches_after_first_field`: run the loop over the
remaining field bodies.  A `FieldTooLongError` sets the message and stops
the loop; a `stop_at` match breaks it. -/
def runLoop (stopAt : Option String) : PState → List String → RunResult
  | s, [] => ⟨[], s, none, false⟩
  | s, body :: rest =>
      match processField stopAt s body with
      | .stop => ⟨[], s, none, false⟩
      | .abort msg => ⟨[], s, some msg, false⟩
      | .crash => ⟨[], s, none, true⟩
      | .cont s₁ out =>
          let r := runLoop stopAt s₁ rest
          ⟨out :: r.outputs, r.state, r.message, r.crashed⟩

/-- The driver loop over fields already split into (name, value, tag):
the same loop body as `runLoop`, used to state record-level properties
(the raw body, which only feeds table-value collection, is empty). -/
def runFields (stopAt : Option String) : PState → List SplitRes → RunResult
  | s, [] => ⟨[], s, none, false⟩
  | s, r :: rest =>
      match processTagged stopAt s "" r with
      | .stop => ⟨[], s, none, false⟩
      | .abort msg => ⟨[], s, some msg, false⟩
      | .crash => ⟨[], s, none, true⟩
      | .cont s₁ out =>
          let r' := runFields stopAt s₁ rest
          ⟨out :: r'.outputs, r'.state, r'.message, r'.crashed⟩

/-- Result of `Parser.parse`: the classified fields, the final state, the
`fields_message`, the never-assigned `Fields.error_tag`, and whether an
unhandled exception escaped. -/
structure ParseResult where
  leading : Option FieldOut
  outputs : List FieldOut
  state : PState
  message : Option String
  errorTag : Option String
  crashed : Bool
deriving DecidableEq, Repr

/-- The parser's initial expected-field context,
`ExpectedFields((None, None))`. -/
def initialPState : PState :=
  { expected := mkExpectedFields EFClass.plain (none, none)
    table := none
    mode := .main
    pin1Handler := .removeField
    history := [] }

/-- `Parser._process_first_field_match` on the first field body: same
dispatch as the loop, but a `FieldTooLongError` is caught and parsing
continues, error statuses rebuild the context without the table flush,
and any other non-ok status raises `FirstFieldStatusError`. -/
def processFirstField (stopAt : Option String) (s : PState) (body : String) :
    LoopOut :=
  let r := splitMatch s.expected.betweenTableStartAndTableEnd s.history body
  if some r.tag = stopAt ∧ r.tag ∈ PARSE_STOP_AT_FIELDS then .stop
  else
    match applyHandler (dispatch s r.tag) s r.tag r.value with
    | .tooLong msg => .abort msg
    | .crash => .crash
    | .ret s₁ status =>
        let out : FieldOut :=
          { name := r.name, value := r.value, tag := r.tag, status := status }
        if status = STATUS_OK then
          .cont { s₁ with history := pushName s₁.history r.tag } out
        else if status = STATUS_IGNORE then .cont s₁ out
        else if status = TAG_ERROR_UNEXPECTED then
          let s₂ := { s₁ with history := pushName s₁.history r.tag }
          let e := mkExpectedFields s₂.expected.efClass s₂.expected.context
          .cont { s₂ with expected := e } out
        else if status = TAG_ERROR_UNKNOWN then
          let s₂ := { s₁ with history := pushName s₁.history r.name }
          let e := mkExpectedFields s₂.expected.efClass s₂.expected.context
          .cont { s₂ with expected := e } out
        else .crash   -- FirstFieldStatusError

/-- `Parser.parse`: split the text on `#` (the regex yields an optional
leading non-field token, one match per `#`-prefixed field, and a final
empty match), process the leading text with `_unknown_name`, then the
first field, then the loop. -/
def parseText (text : String) (stopAt : Option String) : ParseResult :=
  let segs := splitHash text
  let lead := segs.headD ""
  let rest := segs.tail
  let bodies := if rest = [] then ["", ""] else rest ++ [""]
  -- _process_leading_text: only when the first match does not start with #
  let leadStep : Option FieldOut × Option String × PState :=
    if lead = "" ∧ rest ≠ [] then (none, none, initialPState)
    else
      match applyHandler .unknownNameH initialPState lead none with
      | .tooLong msg => (none, some msg, initialPState)
      | .ret s₁ status =>
          (some { name := lead, value := none, tag := lead, status := status },
            none, { s₁ with history := (TABLE_VALUE, lead) :: s₁.history })
      | .crash => (none, none, initialPState)
  match leadStep with
  | (leadOut, leadMsg, s₀) =>
      match processFirstField stopAt s₀ (bodies.headD "") with
      | .stop =>
          { leading := leadOut, outputs := [], state := s₀,
            message := leadMsg, errorTag := none, crashed := false }
      | .crash =>
          { leading := leadOut, outputs := [], state := s₀,
            message := leadMsg, errorTag := none, crashed := true }
      | .abort msg =>
          -- FieldTooLongError on the first field: message set, loop continues
          let r := runLoop stopAt s₀ bodies.tail
          { leading := leadOut, outputs := r.outputs, state := r.state,
            message := match r.message with
              | some m => some m
              | none => some msg,
            errorTag := none, crashed := r.crashed }
      | .cont s₁ out =>
          let r := runLoop stopAt s₁ bodies.tail
          { leading := leadOut, outputs := out :: r.outputs, state := r.state,
            message := match r.message with
              | some m => some m
              | none => leadMsg,
            errorTag := none, crashed := r.crashed }

/-- `Parser.is_valid_result_submission_format`:
`self.fields.error_tag is None`.  (`error_tag` is initialised to `None` in
`Fields.__init__` and never assigned anywhere in the package.) -/
def isValidResultSubmissionFormat (r : ParseResult) : Bool :=
  r.errorTag = none

/-! ## Theorems: table translation (claims C2, C3, C10) -/

/-- A list is non-empty exactly when its length is non-zero. -/
lemma length_ne_zero_of_ne_nil {l : List String} (h : l ≠ []) :
    l.length ≠ 0 :=
  fun h0 => h (List.length_eq_zero.mp h0)

/-- C2: a table whose collected value count is not an exact multiple of its
declared column count is returned unexpanded by
`translate_table_to_name_value_pairs` (the verbatim
COLUMN / TABLE START / values / TABLE END form produced by
`get_table_fields`), and `Fields.append_table` inserts every field of that
table with the `TAG_ERROR_TABLE_LAYOUT` status. -/
theorem c2_non_multiple_table (t : Table)
    (hcols : t.columnNames ≠ [])
    (hmod : t.values.length % t.columnNames.length ≠ 0) :
    t.translateTableToNameValuePairs = some t.getTableFields ∧
      appendTableCompute t =
        some (TAG_ERROR_TABLE_LAYOUT, t.getTableFields, t) := by
  have hlen := length_ne_zero_of_ne_nil hcols
  have h1 : t.translateTableToNameValuePairs = some t.getTableFields := by
    unfold Table.translateTableToNameValuePairs
    cases hb : t.brokenColumnDefinition with
    | true => simp [hb]
    | false => simp [hb, hlen, hmod]
  refine ⟨h1, ?_⟩
  unfold appendTableCompute
  cases hb : t.brokenColumnDefinition with
  | true => simp [hb, hlen, h1]
  | false => simp [hb, hlen, hmod, h1]

/-- Concrete table for the C2 witness: columns PIN, NAME; three values. -/
def c2Table : Table :=
  { replacedName := PIN
    tableType := PLAYER_LIST
    allowedFields := (fieldsAllowedInTable PLAYER_LIST).erase PIN |>.erase NAME
    columnNames := [PIN, NAME]
    values := ["1", "A", "2"]
    brokenColumnDefinition := false }

/-- Witness for C2 at a concrete table (3 values over 2 columns). -/
theorem c2_non_multiple_table_witness :
    c2Table.columnNames ≠ [] ∧
      c2Table.values.length % c2Table.columnNames.length ≠ 0 ∧
      c2Table.translateTableToNameValuePairs = some c2Table.getTableFields ∧
      appendTableCompute c2Table =
        some (TAG_ERROR_TABLE_LAYOUT, c2Table.getTableFields, c2Table) :=
  ⟨by decide, by decide,
    (c2_non_multiple_table c2Table (by decide) (by decide)).1,
    (c2_non_multiple_table c2Table (by decide) (by decide)).2⟩

/-- C10: for a table that is not broken, with a non-empty column list, a
non-empty value list, and an exact-multiple value count, the translation
terminates normally only if the replaced-record name is among the declared
columns; when it is not, `list.index` raises an unhandled `ValueError`
(modelled by `none`), and `Fields.append_table` propagates it instead of
producing a result or an error status. -/
theorem c10_missing_replaced_column (t : Table)
    (hb : t.brokenColumnDefinition = false)
    (hcols : t.columnNames ≠ [])
    (hvals : t.values ≠ [])
    (hmod : t.values.length % t.columnNames.length = 0) :
    (t.replacedName ∉ t.columnNames →
      t.translateTableToNameValuePairs = none ∧
        appendTableCompute t = none) ∧
    (∀ L, t.translateTableToNameValuePairs = some L →
      t.replacedName ∈ t.columnNames) := by
  have hlen := length_ne_zero_of_ne_nil hcols
  constructor
  · intro hmem
    have h1 : t.translateTableToNameValuePairs = none := by
      unfold Table.translateTableToNameValuePairs
      simp [hb, hlen, hmod, hmem]
    refine ⟨h1, ?_⟩
    unfold appendTableCompute
    simp [hlen, h1]
  · intro L hL
    by_contra hmem
    have h1 : t.translateTableToNameValuePairs = none := by
      unfold Table.translateTableToNameValuePairs
      simp [hb, hlen, hmod, hmem]
    rw [h1] at hL
    exact Option.noConfusion hL

/-- Concrete table for the C10 witness: one NAME column, one value, and
the replaced-record name PIN never declared. -/
def c10Table : Table :=
  { replacedName := PIN
    tableType := PLAYER_LIST
    allowedFields := (fieldsAllowedInTable PLAYER_LIST).erase NAME
    columnNames := [NAME]
    values := ["A"]
    brokenColumnDefinition := false }

/-- Witness for C10 at a concrete table. -/
theorem c10_missing_replaced_column_witness :
    c10Table.brokenColumnDefinition = false ∧
      c10Table.replacedName ∉ c10Table.columnNames ∧
      c10Table.translateTableToNameValuePairs = none ∧
      appendTableCompute c10Table = none :=
  ⟨rfl, by decide,
    ((c10_missing_replaced_column c10Table rfl (by decide) (by decide)
      (by decide)).1 (by decide)).1,
    ((c10_missing_replaced_column c10Table rfl (by decide) (by decide)
      (by decide)).1 (by decide)).2⟩

/-- Looking up a key absent from the key list of a zip yields nothing. -/
lemma lookup_zip_eq_none (k : String) :
    ∀ (ks vs : List String), k ∉ ks → (ks.zip vs).lookup k = none := by
  intro ks
  induction ks with
  | nil => intro vs _; simp
  | cons c ks ih =>
      intro vs hk
      cases vs with
      | nil => simp
      | cons w vs =>
          have hkc : k ≠ c := fun h => hk (h ▸ List.mem_cons_self c ks)
          have hks : k ∉ ks := fun h => hk (List.mem_cons_of_mem c h)
          have hb : (k == c) = false := by simpa [beq_iff_eq] using hkc
          simp only [List.lookup, hb]
          exact ih vs hks

/-- `dictSet` appends when the key is new. -/
lemma dictSet_eq_append (d : List (String × String)) (k v : String)
    (h : d.lookup k = none) : dictSet d k v = d ++ [(k, v)] := by
  simp [dictSet, h]

/-- Splitting a `take (j+1)` into `take j` plus the element at `j`. -/
lemma take_succ_getElem (l : List String) (j : Nat) (h : j < l.length) :
    l.take (j + 1) = l.take j ++ [l[j]] := by
  rw [List.take_succ, List.getElem?_eq_getElem h]
  rfl

/-- In a duplicate-free list, the element at position `j` does not occur
among the first `j` elements. -/
lemma getElem_not_mem_take (l : List String) (hnd : l.Nodup) (j : Nat)
    (h : j < l.length) : l[j] ∉ l.take j := by
  intro hmem
  have hnd2 : (l.take j ++ l.drop j).Nodup := by
    rw [List.take_append_drop]; exact hnd
  have hdisj := (List.nodup_append.mp hnd2).2.2
  have h0 : 0 < (l.drop j).length := by simp; omega
  have hdrop : l[j] ∈ l.drop j := by
    have hget : (l.drop j).get ⟨0, h0⟩ = l[j] := by simp
    exact hget ▸ List.get_mem _ _ _
  exact hdisj hmem hdrop

/-- The remaining-columns emission loop over a zip of distinct keys. -/
lemma translateEmitRest_of_lookup (replaced : String) :
    ∀ (ks vs : List String) (d : List (String × String)), ks.Nodup →
      ks.length = vs.length →
      (∀ k ∈ ks, d.lookup k = (ks.zip vs).lookup k) →
      translateEmitRest replaced d ks =
        some ((ks.zip vs).map (fun p =>
          (some (fieldNameAsValueToName replaced p.1), some p.2))) := by
  intro ks
  induction ks with
  | nil => intro vs d _ _ _; simp [translateEmitRest]
  | cons c ks ih =>
      intro vs d hnd hlen hlook
      cases vs with
      | nil => simp at hlen
      | cons w vs =>
          have hc : d.lookup c = some w := by
            have := hlook c (List.mem_cons_self c ks)
            simpa [List.lookup] using this
          have hnd' : ks.Nodup := (List.nodup_cons.mp hnd).2
          have hcks : c ∉ ks := (List.nodup_cons.mp hnd).1
          have hlen' : ks.length = vs.length := by simpa using hlen
          have hlook' : ∀ k ∈ ks, d.lookup k = (ks.zip vs).lookup k := by
            intro k hk
            have hkc : (k == c) = false := by
              simp [beq_iff_eq]
              intro h; exact hcks (h ▸ hk)
            have := hlook k (List.mem_cons_of_mem c hk)
            simpa [List.lookup, hkc] using this
          simp [translateEmitRest, hc, ih vs d hnd' hlen' hlook']

/-- Emitting one complete group: the dict holds the (reordered) columns
zipped with the group's values. -/
lemma translateEmit_zip (replaced : String) (C' : List String) (g0 : String)
    (g' : List String) (hnd : (replaced :: C').Nodup)
    (hlen : C'.length = g'.length) :
    translateEmit replaced (replaced :: C')
        ((replaced :: C').zip (g0 :: g')) =
      some ((some replaced, some g0) ::
        (C'.zip g').map (fun p =>
          (some (fieldNameAsValueToName replaced p.1), some p.2))) := by
  have hrep : ∀ k ∈ C', ((replaced :: C').zip (g0 :: g')).lookup k =
      (C'.zip g').lookup k := by
    intro k hk
    have hkr : (k == replaced) = false := by
      simp [beq_iff_eq]
      intro h
      exact (List.nodup_cons.mp hnd).1 (h ▸ hk)
    simp [List.zip, List.lookup, hkr]
  have hrest := translateEmitRest_of_lookup replaced C' g'
    ((replaced :: C').zip (g0 :: g')) (List.nodup_cons.mp hnd).2 hlen hrep
  rw [List.zip_cons_cons] at hrest
  simp [translateEmit, List.lookup, hrest]

/-- One-step unfolding of the value loop on a non-empty value list. -/
lemma translateLoop_cons (replaced : String) (C : List String) (v : String)
    (vs : List String) (fieldset : List (String × String)) (serial : Nat) :
    translateLoop replaced C (v :: vs) fieldset serial =
      if (dictSet fieldset (C.getD (serial % C.length) "") v).length <
          C.length then
        translateLoop replaced C vs
          (dictSet fieldset (C.getD (serial % C.length) "") v) (serial + 1)
      else
        match translateEmit replaced C
            (dictSet fieldset (C.getD (serial % C.length) "") v) with
        | none => none
        | some emitted =>
            match translateLoop replaced C vs [] (serial + 1) with
            | none => none
            | some rest => some (emitted ++ rest) := rfl

/-- Processing the values of one (complete) group inside
`translate_table_to_name_value_pairs`: the group is accumulated into the
dict position by position and flushed by `translateEmit`. -/
lemma translateLoop_group (replaced : String) (C : List String)
    (hnd : C.Nodup) :
    ∀ (todo done vs : List String) (k : Nat),
      done.length + todo.length = C.length → todo ≠ [] →
      translateLoop replaced C (todo ++ vs)
          ((C.take done.length).zip done) (k * C.length + done.length) =
        (match translateEmit replaced C (C.zip (done ++ todo)) with
         | none => none
         | some e =>
            match translateLoop replaced C vs [] ((k + 1) * C.length) with
            | none => none
            | some rest => some (e ++ rest)) := by
  intro todo
  induction todo with
  | nil => intro done vs k _ htodo; exact absurd rfl htodo
  | cons v todo ih =>
      intro done vs k hlen _
      have hj : done.length < C.length := by
        simp at hlen; omega
      have hkey : C.getD ((k * C.length + done.length) % C.length) "" =
          C[done.length] := by
        have hmod : (k * C.length + done.length) % C.length = done.length := by
          rw [Nat.add_comm, Nat.add_mul_mod_self_right, Nat.mod_eq_of_lt hj]
        rw [hmod, List.getD_eq_getElem?_getD, List.getElem?_eq_getElem hj]
        rfl
      have htakelen : (C.take done.length).length = done.length := by
        simp [List.length_take]; omega
      have hnewkey : ((C.take done.length).zip done).lookup C[done.length] =
          none :=
        lookup_zip_eq_none _ _ _ (getElem_not_mem_take C hnd _ hj)
      have hset : dictSet ((C.take done.length).zip done) C[done.length] v =
          (C.take (done.length + 1)).zip (done ++ [v]) := by
        rw [dictSet_eq_append _ _ _ hnewkey, take_succ_getElem C _ hj,
          List.zip_append htakelen]
        rfl
      have hsetlen : ((C.take (done.length + 1)).zip (done ++ [v])).length =
          done.length + 1 := by
        simp [List.length_zip, List.length_take]
        omega
      rw [List.cons_append, translateLoop_cons, hkey, hset]
      cases todo with
      | nil =>
          -- this value completes the group
          have hfull : done.length + 1 = C.length := by simpa using hlen
          rw [if_neg (by rw [hsetlen]; omega)]
          have htakeC : C.take (done.length + 1) = C := by
            rw [hfull]; exact List.take_length C
          have hserial : k * C.length + done.length + 1 =
              (k + 1) * C.length := by
            rw [Nat.succ_mul]; omega
          rw [htakeC, hserial]
          simp
      | cons v' todo' =>
          have hlt : done.length + 1 < C.length := by
            simp at hlen; omega
          rw [if_pos (by rw [hsetlen]; omega)]
          have hlen' : (done ++ [v]).length + (v' :: todo').length =
              C.length := by
            simp at hlen ⊢; omega
          have hih := ih (done ++ [v]) vs k hlen' (by simp)
          rw [(by simp : (done ++ [v]).length = done.length + 1)] at hih
          rw [(by omega : k * C.length + done.length + 1 =
            k * C.length + (done.length + 1))]
          rw [hih]
          simp

/-- One-step unfolding of the `get_table_fields` value-grouping loop. -/
lemma chunkAux_cons (n : Nat) (acc : List String) (v : String)
    (vs : List String) :
    chunkAux n acc (v :: vs) =
      if (acc ++ [v]).length < n then chunkAux n (acc ++ [v]) vs
      else [acc ++ [v]] ++ chunkAux n [] vs := rfl

/-- Grouping a complete group at the head of the value list. -/
lemma chunkAux_group (n : Nat) :
    ∀ (todo acc rest : List String), acc.length + todo.length = n →
      todo ≠ [] →
      chunkAux n acc (todo ++ rest) = (acc ++ todo) :: chunkAux n [] rest := by
  intro todo
  induction todo with
  | nil => intro acc rest _ htodo; exact absurd rfl htodo
  | cons v todo ih =>
      intro acc rest hlen _
      rw [List.cons_append, chunkAux_cons]
      cases todo with
      | nil =>
          have hfull : acc.length + 1 = n := by simpa using hlen
          rw [if_neg (by simp; omega)]
          simp
      | cons v' todo' =>
          have hlt : (acc ++ [v]).length < n := by simp at hlen ⊢; omega
          rw [if_pos hlt]
          have hlen' : (acc ++ [v]).length + (v' :: todo').length = n := by
            simp at hlen ⊢; omega
          rw [ih (acc ++ [v]) rest hlen' (by simp)]
          simp

/-- The group emission of one table group, as it appears in the statement
of the translation theorem. -/
def groupEmit (replaced : String) (C' : List String) (g : List String) :
    List TableField :=
  (some replaced, some (g.headD "")) ::
    (C'.zip (g.drop 1)).map (fun p =>
      (some (fieldNameAsValueToName replaced p.1), some p.2))

/-- The translation value loop, started at a group boundary on a value
list whose length is an exact multiple of the (reordered, duplicate-free)
column count, emits exactly one group of name/value pairs per chunk of
values. -/
lemma translateLoop_chunks (replaced : String) (C' : List String)
    (hnd : (replaced :: C').Nodup) :
    ∀ (m : Nat) (values : List String) (k : Nat),
      values.length = m * (replaced :: C').length →
      translateLoop replaced (replaced :: C') values []
          (k * (replaced :: C').length) =
        some ((chunkValues (replaced :: C').length values).flatMap
          (groupEmit replaced C')) := by
  intro m
  induction m with
  | zero =>
      intro values k h
      have hv : values = [] := List.eq_nil_of_length_eq_zero (by simpa using h)
      subst hv
      simp [translateLoop, chunkValues, chunkAux]
  | succ m ih =>
      intro values k h
      have hnpos : 0 < (replaced :: C').length := by simp
      rw [Nat.succ_mul] at h
      have hlen_ge : (replaced :: C').length ≤ values.length := by
        rw [h]; exact Nat.le_add_left _ _
      have hglen : (values.take (replaced :: C').length).length =
          (replaced :: C').length := by
        rw [List.length_take]
        exact Nat.min_eq_left hlen_ge
      have hgne : values.take (replaced :: C').length ≠ [] := by
        intro h0
        rw [h0] at hglen
        simp at hglen
      have hrest : (values.drop (replaced :: C').length).length =
          m * (replaced :: C').length := by
        rw [List.length_drop, h]
        omega
      have hsplit := List.take_append_drop (replaced :: C').length values
      have hstep := translateLoop_group replaced (replaced :: C') hnd
        (values.take (replaced :: C').length) []
        (values.drop (replaced :: C').length) k (by simpa using hglen) hgne
      simp only [List.length_nil, List.take_zero, List.zip_nil_right,
        Nat.add_zero, List.nil_append] at hstep
      rw [hsplit] at hstep
      rw [hstep]
      -- decompose the group
      cases hg : values.take (replaced :: C').length with
      | nil => exact absurd hg hgne
      | cons g0 g' =>
          have hglen' : C'.length = g'.length := by
            rw [hg] at hglen
            simpa using hglen.symm
          rw [translateEmit_zip replaced C' g0 g' hnd hglen',
            ih (values.drop (replaced :: C').length) (k + 1) hrest]
          -- right-hand side: the first chunk is the group
          have hchunk : chunkValues (replaced :: C').length values =
              (g0 :: g') :: chunkValues (replaced :: C').length
                (values.drop (replaced :: C').length) := by
            unfold chunkValues
            have := chunkAux_group (replaced :: C').length
              (values.take (replaced :: C').length) []
              (values.drop (replaced :: C').length) (by simpa using hglen)
              hgne
            rw [hsplit] at this
            rw [this, hg]
            simp
          rw [hchunk]
          simp [groupEmit]

/-- C3: for a table that is not marked broken, with a duplicate-free
column list containing the replaced-record name, and a value count that is
an exact multiple of the column count,
`translate_table_to_name_value_pairs` moves the replaced-record column to
position 0 (the other columns keeping their relative order), walks the
values in groups of the column count, and emits for each group one
`(replaced_record, value)` pair followed by `(column, value)` pairs for
the remaining columns, with COMMENT remapped to the record-scoped comment
variant. -/
theorem c3_table_expansion (t : Table)
    (hb : t.brokenColumnDefinition = false)
    (hnd : t.columnNames.Nodup)
    (hmem : t.replacedName ∈ t.columnNames)
    (hmod : t.values.length % t.columnNames.length = 0) :
    moveReplacedToFront t.replacedName t.columnNames =
        t.replacedName :: t.columnNames.erase t.replacedName ∧
      t.translateTableToNameValuePairs =
        some ((chunkValues t.columnNames.length t.values).flatMap
          (groupEmit t.replacedName (t.columnNames.erase t.replacedName))) := by
  refine ⟨rfl, ?_⟩
  have hcols : t.columnNames ≠ [] := by
    intro h0; rw [h0] at hmem; exact absurd hmem (List.not_mem_nil _)
  have hlen := length_ne_zero_of_ne_nil hcols
  have hndC : (t.replacedName :: t.columnNames.erase t.replacedName).Nodup := by
    refine List.nodup_cons.mpr ⟨?_, hnd.erase t.replacedName⟩
    intro hmem2
    exact absurd ((hnd.mem_erase_iff).mp hmem2).1 (by simp)
  have hClen : (t.replacedName :: t.columnNames.erase t.replacedName).length =
      t.columnNames.length := by
    simp [List.length_erase_of_mem hmem]
    omega
  obtain ⟨m, hm⟩ := Nat.dvd_of_mod_eq_zero hmod
  have hloop := translateLoop_chunks t.replacedName
    (t.columnNames.erase t.replacedName) hndC m t.values 0
    (by rw [hClen, hm, Nat.mul_comm])
  simp only [Nat.zero_mul] at hloop
  rw [hClen] at hloop
  unfold Table.translateTableToNameValuePairs
  rw [if_neg (by simp [hb]), if_neg (by simpa using hlen),
    if_neg (by simpa using hmod), if_neg (by simpa using hmem)]
  unfold moveReplacedToFront
  exact hloop

/-- Concrete table for the C3 witness: columns NAME, PIN (so the
replaced-record column must move to the front), two complete groups. -/
def c3Table : Table :=
  { replacedName := PIN
    tableType := PLAYER_LIST
    allowedFields := (fieldsAllowedInTable PLAYER_LIST).erase NAME |>.erase PIN
    columnNames := [NAME, PIN]
    values := ["A", "1", "B", "2"]
    brokenColumnDefinition := false }

/-- Witness for C3 at a concrete table. -/
theorem c3_table_expansion_witness :
    c3Table.brokenColumnDefinition = false ∧
      c3Table.columnNames.Nodup ∧
      c3Table.replacedName ∈ c3Table.columnNames ∧
      c3Table.values.length % c3Table.columnNames.length = 0 ∧
      c3Table.translateTableToNameValuePairs =
        some ((chunkValues c3Table.columnNames.length c3Table.values).flatMap
          (groupEmit c3Table.replacedName
            (c3Table.columnNames.erase c3Table.replacedName))) :=
  ⟨rfl, by decide, by decide, by decide,
    (c3_table_expansion c3Table rfl (by decide) (by decide) (by decide)).2⟩

/-! ## Theorems: the parsing driver (claims C4, C5, C6, C7, C8, C9, C1) -/

/-- The document of the C8 scenario. -/
def c8Document : String := "#EVENT DETAILS#FOO=BAR#FINISH"

/-- C8 (the code-level fact at the claim's failing input): parsing
`#EVENT DETAILS#FOO=BAR#FINISH` classifies the FOO field with status
`TAG_ERROR_UNKNOWN`, but `Fields.error_tag` — never assigned anywhere in
the package — stays `None`, so `is_valid_result_submission_format`
returns `True`, not `False` as the claim (and the property's own
docstring) requires. -/
theorem c8_unknown_field_is_valid_true :
    (parseText c8Document none).outputs.map (fun o => (o.tag, o.status)) =
        [(EVENT_DETAILS, STATUS_OK), ("FOO", TAG_ERROR_UNKNOWN),
          (FINISH, STATUS_OK), (TABLE_VALUE, STATUS_IGNORE)] ∧
      (parseText c8Document none).crashed = false ∧
      (parseText c8Document none).errorTag = none ∧
      isValidResultSubmissionFormat (parseText c8Document none) = true :=
  ⟨by decide, by decide, by decide, by decide⟩

/-- A 41-character field name that is not in the grammar. -/
def c7Junk : String := "AAAAAAAAAAAAAAAAAAAAAAAAAAAAAAAAAAAAAAAAA"

/-- The C7 counterexample document: the overlong unknown name is the
first field. -/
def c7Document : String := "#" ++ c7Junk ++ "#FINISH"

/-- Counterexample to C7 as stated: when the overlong unknown field is
the first field of the document, `_process_first_field_match` catches the
`FieldTooLongError`: the message is recorded, the offending field is
discarded (no status is produced for it, nothing is inserted), and
parsing continues — the later FINISH field still receives status `ok`,
so the parse does not abort at the offending field. -/
theorem c7_counterexample_first_field_continues :
    (parseText c7Document none).message = some (nameTooLongMsg c7Junk) ∧
      (parseText c7Document none).outputs.map (fun o => (o.tag, o.status)) =
        [(FINISH, STATUS_OK), (TABLE_VALUE, STATUS_IGNORE)] ∧
      (parseText c7Document none).crashed = false :=
  ⟨by decide, by decide, by decide⟩

/-- C7 (amended): in the driver loop over the fields after the first,
with the main switch live, a field whose tag is not in the switch and
whose name exceeds 40 characters (or whose value exceeds 100 characters)
raises `FieldTooLongError`: the message is recorded and the loop stops,
producing no status for that field or for any later field. -/
theorem c7_too_long_aborts (s : PState) (body : String)
    (bodies : List String) (r : SplitRes)
    (hmode : s.mode = PMode.main)
    (hsplit : splitMatch s.expected.betweenTableStartAndTableEnd s.history
      body = r)
    (hpin1 : r.tag ≠ PIN1)
    (hunk : switchMain.lookup r.tag = none)
    (hlong : (∃ v, r.value = some v ∧ v.length > 100) ∨
      r.tag.length > 40) :
    (runLoop none s (body :: bodies)).outputs = [] ∧
      (runLoop none s (body :: bodies)).message.isSome = true ∧
      (runLoop none s (body :: bodies)).crashed = false := by
  have hdisp : dispatch s r.tag = FieldHandler.unknownNameH := by
    unfold dispatch
    rw [hmode]
    simp [hpin1, hunk]
  have happ : ∃ msg, applyHandler FieldHandler.unknownNameH s r.tag r.value =
      HandlerOut.tooLong msg := by
    unfold applyHandler
    match hv : r.value with
    | some v =>
        by_cases hlen : v.length > 100
        · exact ⟨valueTooLongMsg v.length, by simp [hlen]⟩
        · have htag : r.tag.length > 40 := by
            rcases hlong with ⟨v', hv', hlen'⟩ | htag
            · rw [hv] at hv'
              cases hv'
              omega
            · exact htag
          exact ⟨nameTooLongMsg r.tag, by simp [hlen, htag]⟩
    | none =>
        have htag : r.tag.length > 40 := by
          rcases hlong with ⟨v', hv', _⟩ | htag
          · rw [hv] at hv'
            exact absurd hv' (by simp)
          · exact htag
        exact ⟨nameTooLongMsg r.tag, by simp [htag]⟩
  obtain ⟨msg, happ⟩ := happ
  have hstep : processField none s body = LoopOut.abort msg := by
    unfold processField processTagged
    rw [hsplit, hdisp, happ]
    simp
  unfold runLoop
  rw [hstep]
  simp

/-- Witness for the amended C7: a 41-character unknown name in the loop
aborts the parse with a message and no further statuses. -/
theorem c7_too_long_aborts_witness :
    (runLoop none initialPState [c7Junk, "FINISH"]).outputs = [] ∧
      (runLoop none initialPState [c7Junk, "FINISH"]).message.isSome = true ∧
      (runLoop none initialPState [c7Junk, "FINISH"]).crashed = false :=
  c7_too_long_aborts initialPState c7Junk ["FINISH"]
    (splitMatch initialPState.expected.betweenTableStartAndTableEnd
      initialPState.history c7Junk)
    rfl rfl (by decide) (by decide) (Or.inr (by decide))

/-- The C4 counterexample document: every mandatory event field present,
and of the time-limit fields only MOVES FIRST SESSION and
MINUTES FIRST SESSION. -/
def c4Document : String :=
  String.intercalate "#"
    ["", "EVENT DETAILS", "EVENT CODE=1", "SUBMISSION INDEX=2",
      "EVENT NAME=E", "EVENT DATE=01/01/2022",
      "FINAL RESULT DATE=02/01/2022", "RESULTS OFFICER=RO",
      "RESULTS OFFICER ADDRESS=1 Street", "TREASURER=T",
      "TREASURER ADDRESS=2 Street", "MOVES FIRST SESSION=40",
      "MINUTES FIRST SESSION=90", "PLAYER LIST", "PIN=1", "NAME=A", "FINISH"]

/-- Counterexample to C4 as stated: at the moment PLAYER LIST is reached
in `c4Document`, the EVENT DETAILS boundary validation (the very
computation `_player_list` performs after removing PLAYER LIST from the
expected set) returns `True`: the time-limit counter is 2 (non-zero and
even), so the incomplete 2-session shape is NOT rejected. -/
theorem c4_counterexample_two_session_passes :
    ((((parseText c4Document (some PLAYER_LIST)).state.expected
          ).removeExpectedField PLAYER_LIST).2
        ).validateEventDetailsFieldCombinations = true ∧
      (parseText c4Document
        (some PLAYER_LIST)).state.expected.timeLimitFieldCount = 2 ∧
      (parseText c4Document (some PLAYER_LIST)).outputs.map
          (fun o => o.status) = List.replicate 12 STATUS_OK :=
  ⟨by decide, by decide, by decide⟩

/-- The tag sequence of the EVENT DETAILS part used for the amended C4:
all mandatory event fields plus MOVES FIRST SESSION and
MINUTES FIRST SESSION. -/
def c4FieldTags : List String :=
  [EVENT_DETAILS, EVENT_CODE, SUBMISSION_INDEX, EVENT_NAME, EVENT_DATE,
    FINAL_RESULT_DATE, RESULTS_OFFICER, RESULTS_OFFICER_ADDRESS, TREASURER,
    TREASURER_ADDRESS, MOVES_FIRST_SESSION, MINUTES_FIRST_SESSION]

/-- Projections of `remove_expected_field` other than the expected set are
unchanged. -/
lemma removeExpectedField_efClass (e : ExpectedFields) (n : String) :
    (e.removeExpectedField n).2.efClass = e.efClass := by
  unfold ExpectedFields.removeExpectedField
  split <;> rfl

lemma removeExpectedField_context (e : ExpectedFields) (n : String) :
    (e.removeExpectedField n).2.context = e.context := by
  unfold ExpectedFields.removeExpectedField
  split <;> rfl

lemma removeExpectedField_timeLimit (e : ExpectedFields) (n : String) :
    (e.removeExpectedField n).2.timeLimitFieldCount =
      e.timeLimitFieldCount := by
  unfold ExpectedFields.removeExpectedField
  split <;> rfl

lemma removeExpectedField_roa (e : ExpectedFields) (n : String) :
    (e.removeExpectedField n).2.resultsOfficerAddressCount =
      e.resultsOfficerAddressCount := by
  unfold ExpectedFields.removeExpectedField
  split <;> rfl

lemma removeExpectedField_ta (e : ExpectedFields) (n : String) :
    (e.removeExpectedField n).2.treasurerAddressCount =
      e.treasurerAddressCount := by
  unfold ExpectedFields.removeExpectedField
  split <;> rfl

/-- The expected set after a `remove_expected_field` is contained in the
original expected set. -/
lemma removeExpectedField_subset (e : ExpectedFields) (n : String) :
    ∀ x ∈ (e.removeExpectedField n).2.expected, x ∈ e.expected := by
  intro x
  unfold ExpectedFields.removeExpectedField
  split
  · intro hx
    exact List.mem_of_mem_erase hx
  · exact id

/-- `EventDetails.validate_event_details_field_combinations` returns
`True` exactly when the time-limit counter is non-zero and even, provided
the repeatable address bookkeeping is consistent (a non-zero address
counter means the field is back in the expected set) and every mandatory
event field still expected is one of the re-added repeatable address
fields. -/
lemma validateEventDetails_true_iff (e : ExpectedFields)
    (hc : e.efClass = EFClass.eventDetails)
    (h1 : e.treasurerAddressCount ≠ 0 → TREASURER_ADDRESS ∈ e.expected)
    (h2 : e.resultsOfficerAddressCount ≠ 0 →
      RESULTS_OFFICER_ADDRESS ∈ e.expected)
    (h3 : ∀ n ∈ e.expected, n ∈ MANDATORY_EVENT_FIELDS →
      (n = TREASURER_ADDRESS ∧ e.treasurerAddressCount ≠ 0) ∨
      (n = RESULTS_OFFICER_ADDRESS ∧ e.resultsOfficerAddressCount ≠ 0))
    (hnd : e.expected.Nodup) :
    e.validateEventDetailsFieldCombinations = true ↔
      e.timeLimitFieldCount ≠ 0 ∧ e.timeLimitFieldCount % 2 = 0 := by
  unfold ExpectedFields.validateEventDetailsFieldCombinations
  rw [if_neg (by simp [hc])]
  simp only []
  -- step 1: the conditional removal of TREASURER ADDRESS
  have hstep1 : (if e.treasurerAddressCount ≠ 0 then
      e.removeExpectedField TREASURER_ADDRESS else (true, e)).1 = true ∧
      ∀ x ∈ (if e.treasurerAddressCount ≠ 0 then
        e.removeExpectedField TREASURER_ADDRESS else (true, e)).2.expected,
        x ∈ e.expected ∧ (e.treasurerAddressCount ≠ 0 →
          x ≠ TREASURER_ADDRESS) := by
    by_cases ht : e.treasurerAddressCount = 0
    · rw [if_neg (by simp [ht])]
      exact ⟨rfl, fun x hx => ⟨hx, fun hcnt => absurd ht hcnt⟩⟩
    · rw [if_pos ht]
      have hmem := h1 ht
      constructor
      · simp [ExpectedFields.removeExpectedField, hmem]
      · intro x hx
        rw [(by simp [ExpectedFields.removeExpectedField, hmem] :
          (e.removeExpectedField TREASURER_ADDRESS).2.expected =
            e.expected.erase TREASURER_ADDRESS)] at hx
        exact ⟨List.mem_of_mem_erase hx,
          fun _ => (hnd.mem_erase_iff.mp hx).1⟩
  set r₁ := if e.treasurerAddressCount ≠ 0 then
    e.removeExpectedField TREASURER_ADDRESS else (true, e) with hr₁
  rw [if_neg (show ¬ (r₁.1 = false) by simp [hstep1.1])]
  -- the counters and class of the intermediate state are unchanged
  have hr₁proj : r₁.2.resultsOfficerAddressCount =
      e.resultsOfficerAddressCount ∧
      r₁.2.treasurerAddressCount = e.treasurerAddressCount ∧
      r₁.2.timeLimitFieldCount = e.timeLimitFieldCount ∧
      r₁.2.expected.Nodup := by
    rw [hr₁]
    by_cases ht : e.treasurerAddressCount = 0
    · rw [if_neg (by simp [ht])]
      exact ⟨rfl, rfl, rfl, hnd⟩
    · rw [if_pos ht]
      refine ⟨removeExpectedField_roa e _, removeExpectedField_ta e _,
        removeExpectedField_timeLimit e _, ?_⟩
      unfold ExpectedFields.removeExpectedField
      split
      · exact hnd.erase _
      · exact hnd
  -- step 2: the conditional removal of RESULTS OFFICER ADDRESS
  have hstep2 : (if r₁.2.resultsOfficerAddressCount ≠ 0 then
      r₁.2.removeExpectedField RESULTS_OFFICER_ADDRESS else (true, r₁.2)).1 =
        true ∧
      ∀ x ∈ (if r₁.2.resultsOfficerAddressCount ≠ 0 then
        r₁.2.removeExpectedField RESULTS_OFFICER_ADDRESS
          else (true, r₁.2)).2.expected,
        (x ∈ e.expected ∧ (e.treasurerAddressCount ≠ 0 →
          x ≠ TREASURER_ADDRESS)) ∧
          (e.resultsOfficerAddressCount ≠ 0 →
            x ≠ RESULTS_OFFICER_ADDRESS) := by
    by_cases hro : r₁.2.resultsOfficerAddressCount = 0
    · rw [if_neg (by simp [hro])]
      refine ⟨rfl, fun x hx => ⟨hstep1.2 x hx, fun hcnt => ?_⟩⟩
      rw [hr₁proj.1] at hro
      exact absurd hro hcnt
    · rw [if_pos hro]
      have hro' : e.resultsOfficerAddressCount ≠ 0 := by
        rw [hr₁proj.1] at hro; exact hro
      have hmem : RESULTS_OFFICER_ADDRESS ∈ r₁.2.expected := by
        have := h2 hro'
        rw [hr₁]
        by_cases ht : e.treasurerAddressCount = 0
        · rw [if_neg (by simp [ht])]
          exact this
        · rw [if_pos ht]
          unfold ExpectedFields.removeExpectedField
          split
          · exact (List.mem_erase_of_ne (by decide)).mpr this
          · exact this
      constructor
      · simp [ExpectedFields.removeExpectedField, hmem]
      · intro x hx
        rw [(by simp [ExpectedFields.removeExpectedField, hmem] :
          (r₁.2.removeExpectedField RESULTS_OFFICER_ADDRESS).2.expected =
            r₁.2.expected.erase RESULTS_OFFICER_ADDRESS)] at hx
        refine ⟨hstep1.2 x (List.mem_of_mem_erase hx), fun _ => ?_⟩
        exact (hr₁proj.2.2.2.mem_erase_iff.mp hx).1
  set r₂ := if r₁.2.resultsOfficerAddressCount ≠ 0 then
    r₁.2.removeExpectedField RESULTS_OFFICER_ADDRESS else (true, r₁.2)
    with hr₂
  rw [if_neg (show ¬ (r₂.1 = false) by simp [hstep2.1])]
  -- the mandatory-field intersection is now empty
  have hmand : r₂.2.interList MANDATORY_EVENT_FIELDS = [] := by
    unfold ExpectedFields.interList
    rw [List.filter_eq_nil]
    intro a ha
    obtain ⟨⟨hae, hta⟩, hroa⟩ := hstep2.2 a ha
    simp only [decide_eq_true_eq]
    intro hamand
    rcases h3 a hae hamand with ⟨haeq, hcnt⟩ | ⟨haeq, hcnt⟩
    · exact (hta hcnt) haeq
    · exact (hroa hcnt) haeq
  rw [if_neg (show ¬ (r₂.2.interList MANDATORY_EVENT_FIELDS ≠ []) by
    simp [hmand])]
  -- the time-limit counter test
  have hr₂tl : r₂.2.timeLimitFieldCount = e.timeLimitFieldCount := by
    rw [hr₂]
    by_cases hro : r₁.2.resultsOfficerAddressCount = 0
    · rw [if_neg (by simp [hro])]
      exact hr₁proj.2.2.1
    · rw [if_pos hro, removeExpectedField_timeLimit]
      exact hr₁proj.2.2.1
  rw [hr₂tl]
  by_cases hz : e.timeLimitFieldCount = 0 ∨ e.timeLimitFieldCount % 2 = 1
  · rw [if_pos hz]
    constructor
    · intro h; exact absurd h (by simp)
    · intro ⟨hne, heven⟩
      rcases hz with hz | hz
      · exact absurd hz hne
      · omega
  · rw [if_neg hz]
    push_neg at hz
    exact ⟨fun _ => ⟨hz.1, by omega⟩, fun _ => rfl⟩

/-- C4 (amended): a document whose EVENT DETAILS part carries all
mandatory event fields and, of the time-limit fields, only
MOVES FIRST SESSION and MINUTES FIRST SESSION, is consumed with every
status `ok` and drives the time-limit counter to 2; since the counter is
non-zero and even, the EVENT DETAILS boundary validation computed when
PLAYER LIST is reached succeeds instead of failing — in general,
validation accepts any consistent EVENT DETAILS state whose counter is 2
(the missing MINUTES REST OF GAME of the 2-session shape goes
undetected); and the parser discards the validation result anyway. -/
theorem c4_validation_accepts_incomplete_sessions :
    ((runFields none initialPState
        (c4FieldTags.map (fun t => ⟨t, none, t⟩))).outputs.map
        (fun o => o.status) = List.replicate 12 STATUS_OK ∧
      (runFields none initialPState
          (c4FieldTags.map (fun t => ⟨t, none, t⟩))
        ).state.expected.timeLimitFieldCount = 2 ∧
      ((((runFields none initialPState
              (c4FieldTags.map (fun t => ⟨t, none, t⟩))
            ).state.expected).removeExpectedField PLAYER_LIST).2
          ).validateEventDetailsFieldCombinations = true) ∧
    (∀ e : ExpectedFields, e.efClass = EFClass.eventDetails →
      (e.treasurerAddressCount ≠ 0 → TREASURER_ADDRESS ∈ e.expected) →
      (e.resultsOfficerAddressCount ≠ 0 →
        RESULTS_OFFICER_ADDRESS ∈ e.expected) →
      (∀ n ∈ e.expected, n ∈ MANDATORY_EVENT_FIELDS →
        (n = TREASURER_ADDRESS ∧ e.treasurerAddressCount ≠ 0) ∨
        (n = RESULTS_OFFICER_ADDRESS ∧ e.resultsOfficerAddressCount ≠ 0)) →
      e.expected.Nodup →
      e.timeLimitFieldCount = 2 →
      e.validateEventDetailsFieldCombinations = true) :=
  ⟨⟨by decide, by decide, by decide⟩,
    fun e hc h1 h2 h3 hnd hcnt =>
      (validateEventDetails_true_iff e hc h1 h2 h3 hnd).mpr
        ⟨by omega, by omega⟩⟩

/-- The EVENT DETAILS state after the fields of `c4Document`, as the
parser's handlers build it (validation input at the PLAYER LIST
boundary). -/
def c4State : ExpectedFields :=
  ((runFields none initialPState
      (c4FieldTags.map (fun t => ⟨t, none, t⟩))
    ).state.expected.removeExpectedField PLAYER_LIST).2

/-- Witness for the amended C4 at the concrete boundary state. -/
theorem c4_validation_accepts_incomplete_sessions_witness :
    c4State.efClass = EFClass.eventDetails ∧
      c4State.timeLimitFieldCount = 2 ∧
      c4State.validateEventDetailsFieldCombinations = true :=
  ⟨by decide, by decide,
    c4_validation_accepts_incomplete_sessions.2 c4State (by decide)
      (by decide) (by decide) (by decide) (by decide) (by decide)⟩

/-- A freshly constructed EVENT DETAILS expected-field context. -/
def c1Fresh : ExpectedFields :=
  mkExpectedFields EFClass.eventDetails (some EVENT_DETAILS, none)

/-- An EVENT DETAILS context with all mandatory event fields, then
MOVES FIRST SESSION and MINUTES FIRST SESSION, consumed through the
handlers' operations. -/
def c1State : ExpectedFields :=
  let e := c1Fresh
  let e := (e.removeExpectedField EVENT_CODE).2
  let e := (e.removeExpectedField SUBMISSION_INDEX).2
  let e := (e.removeExpectedField EVENT_NAME).2
  let e := (e.removeExpectedField EVENT_DATE).2
  let e := (e.removeExpectedField FINAL_RESULT_DATE).2
  let e := (e.removeExpectedField RESULTS_OFFICER).2
  let e := ((e.removeExpectedField RESULTS_OFFICER_ADDRESS).2).add
    RESULTS_OFFICER_ADDRESS
  let e := (e.removeExpectedField TREASURER).2
  let e := ((e.removeExpectedField TREASURER_ADDRESS).2).add
    TREASURER_ADDRESS
  let e := (e.removeMinutesAndMoves MOVES_FIRST_SESSION).2
  (e.removeMinutesAndMoves MINUTES_FIRST_SESSION).2

/-- C1: the parser maps MINUTES FOR GAME to `remove_minutes_for_game`,
MINUTES REST OF GAME to `remove_minutes_rest_of_game`, and the four
session fields to `remove_minutes_and_moves`; on an EVENT DETAILS
context, a successful consumption through those methods increments the
time-limit counter by 2, 2 and 1 respectively; and the boundary
validation succeeds, with respect to time limits, exactly when the
counter is non-zero and even. -/
theorem c1_time_limit_counter (s : ExpectedFields)
    (hc : s.efClass = EFClass.eventDetails) :
    (switchMain.lookup MINUTES_FOR_GAME =
        some FieldHandler.removeMinutesForGameH ∧
      switchMain.lookup MINUTES_REST_OF_GAME =
        some FieldHandler.minutesRestOfGameH ∧
      switchMain.lookup MOVES_FIRST_SESSION =
        some FieldHandler.minutesAndMoves ∧
      switchMain.lookup MINUTES_FIRST_SESSION =
        some FieldHandler.minutesAndMoves ∧
      switchMain.lookup MOVES_SECOND_SESSION =
        some FieldHandler.minutesAndMoves ∧
      switchMain.lookup MINUTES_SECOND_SESSION =
        some FieldHandler.minutesAndMoves) ∧
    (∀ name, (s.removeMinutesForGame name).1 = true →
      (s.removeMinutesForGame name).2.timeLimitFieldCount =
        s.timeLimitFieldCount + 2) ∧
    (∀ name, (s.removeMinutesRestOfGame name).1 = true →
      (s.removeMinutesRestOfGame name).2.timeLimitFieldCount =
        s.timeLimitFieldCount + 2) ∧
    (∀ name, (s.removeMinutesAndMoves name).1 = true →
      (s.removeMinutesAndMoves name).2.timeLimitFieldCount =
        s.timeLimitFieldCount + 1) ∧
    ((s.treasurerAddressCount ≠ 0 → TREASURER_ADDRESS ∈ s.expected) →
      (s.resultsOfficerAddressCount ≠ 0 →
        RESULTS_OFFICER_ADDRESS ∈ s.expected) →
      (∀ n ∈ s.expected, n ∈ MANDATORY_EVENT_FIELDS →
        (n = TREASURER_ADDRESS ∧ s.treasurerAddressCount ≠ 0) ∨
        (n = RESULTS_OFFICER_ADDRESS ∧ s.resultsOfficerAddressCount ≠ 0)) →
      s.expected.Nodup →
      (s.validateEventDetailsFieldCombinations = true ↔
        s.timeLimitFieldCount ≠ 0 ∧ s.timeLimitFieldCount % 2 = 0)) := by
  refine ⟨⟨by decide, by decide, by decide, by decide, by decide, by decide⟩,
    ?_, ?_, ?_, fun h1 h2 h3 hnd =>
      validateEventDetails_true_iff s hc h1 h2 h3 hnd⟩
  · intro name h
    unfold ExpectedFields.removeMinutesForGame at h ⊢
    by_cases hmem : name ∈ s.expected
    · simp [ExpectedFields.removeExpectedField, hmem,
        ExpectedFields.discard, hc] at h ⊢
    · simp [ExpectedFields.removeExpectedField, hmem] at h
  · intro name h
    unfold ExpectedFields.removeMinutesRestOfGame at h ⊢
    by_cases hmem : name ∈ s.expected
    · simp [ExpectedFields.removeExpectedField, hmem,
        ExpectedFields.discard, hc] at h ⊢
    · simp [ExpectedFields.removeExpectedField, hmem] at h
  · intro name h
    unfold ExpectedFields.removeMinutesAndMoves at h ⊢
    by_cases hmem : name ∈ s.expected
    · simp [ExpectedFields.removeExpectedField, hmem,
        ExpectedFields.discard, hc] at h ⊢
    · simp [ExpectedFields.removeExpectedField, hmem] at h

/-- Witness for C1: the fresh EVENT DETAILS context takes the three
increments, and the state of `c1State` (counter 2) satisfies the
validation characterization. -/
theorem c1_time_limit_counter_witness :
    ((c1Fresh.removeMinutesForGame MINUTES_FOR_GAME).1 = true ∧
      (c1Fresh.removeMinutesForGame MINUTES_FOR_GAME).2.timeLimitFieldCount =
        c1Fresh.timeLimitFieldCount + 2) ∧
    ((c1Fresh.removeMinutesRestOfGame MINUTES_REST_OF_GAME).1 = true ∧
      (c1Fresh.removeMinutesRestOfGame
          MINUTES_REST_OF_GAME).2.timeLimitFieldCount =
        c1Fresh.timeLimitFieldCount + 2) ∧
    ((c1Fresh.removeMinutesAndMoves MOVES_FIRST_SESSION).1 = true ∧
      (c1Fresh.removeMinutesAndMoves
          MOVES_FIRST_SESSION).2.timeLimitFieldCount =
        c1Fresh.timeLimitFieldCount + 1) ∧
    (c1State.validateEventDetailsFieldCombinations = true ↔
      c1State.timeLimitFieldCount ≠ 0 ∧
        c1State.timeLimitFieldCount % 2 = 0) :=
  ⟨⟨by decide, (c1_time_limit_counter c1Fresh rfl).2.1 MINUTES_FOR_GAME
      (by decide)⟩,
    ⟨by decide, (c1_time_limit_counter c1Fresh rfl).2.2.1
      MINUTES_REST_OF_GAME (by decide)⟩,
    ⟨by decide, (c1_time_limit_counter c1Fresh rfl).2.2.2.1
      MOVES_FIRST_SESSION (by decide)⟩,
    (c1_time_limit_counter c1State (by decide)).2.2.2.2 (by decide)
      (by decide) (by decide) (by decide)⟩

/-- C5 counterexample document: ECF CODE then CLUB CODE in one Pin
record. -/
def c5Document : String :=
  "#EVENT DETAILS#PLAYER LIST#PIN=1#ECF CODE=123456A#CLUB CODE=5#FINISH"

/-- C5 counterexample document, the two fields in the other order. -/
def c5DocumentRev : String :=
  "#EVENT DETAILS#PLAYER LIST#PIN=1#CLUB CODE=5#ECF CODE=123456A#FINISH"

/-- Counterexample to C5 as stated: with both ECF CODE and CLUB CODE in
one Pin record (either order), the second of the two is classified `ok`,
not `ErrorUnexpected` — each is independently in the expected set, and
the mutual-exclusion check lives only in
`validate_pin_field_combinations`, whose result the parser discards. -/
theorem c5_counterexample_second_code_ok :
    (parseText c5Document none).outputs.map (fun o => (o.tag, o.status)) =
        [(EVENT_DETAILS, STATUS_OK), (PLAYER_LIST, STATUS_OK),
          (PIN, STATUS_OK), (ECF_CODE, STATUS_OK), (CLUB_CODE, STATUS_OK),
          (FINISH, STATUS_OK), (TABLE_VALUE, STATUS_IGNORE)] ∧
      (parseText c5DocumentRev none).outputs.map
          (fun o => (o.tag, o.status)) =
        [(EVENT_DETAILS, STATUS_OK), (PLAYER_LIST, STATUS_OK),
          (PIN, STATUS_OK), (CLUB_CODE, STATUS_OK), (ECF_CODE, STATUS_OK),
          (FINISH, STATUS_OK), (TABLE_VALUE, STATUS_IGNORE)] :=
  ⟨by decide, by decide⟩

/-- A driver-loop step whose handler returns `ok`: the field is inserted
(name pushed to the history) and the loop continues. -/
lemma processTagged_ok (s : PState) (body name : String) (v : Option String)
    (tag : String) (s₁ : PState)
    (happ : applyHandler (dispatch s tag) s tag v =
      HandlerOut.ret s₁ STATUS_OK) :
    processTagged none s body ⟨name, v, tag⟩ =
      LoopOut.cont { s₁ with history := pushName s₁.history tag }
        ⟨name, v, tag, STATUS_OK⟩ := by
  unfold processTagged
  rw [if_neg (by simp)]
  simp only []
  rw [happ]
  simp

/-- A driver-loop step whose handler returns `unexpected` with no pending
table: `_add_non_ecf_format_field` inserts the field and rebuilds the
expected-field context for the same class and key. -/
lemma processTagged_unexpected (s : PState) (body name : String)
    (v : Option String) (tag : String) (s₁ : PState)
    (happ : applyHandler (dispatch s tag) s tag v =
      HandlerOut.ret s₁ TAG_ERROR_UNEXPECTED)
    (htab : s₁.table = none) :
    processTagged none s body ⟨name, v, tag⟩ =
      LoopOut.cont { s₁ with
          history := pushName s₁.history tag
          expected := mkExpectedFields s₁.expected.efClass
            s₁.expected.context }
        ⟨name, v, tag, TAG_ERROR_UNEXPECTED⟩ := by
  unfold processTagged
  rw [if_neg (by simp)]
  simp only []
  rw [happ]
  simp only []
  rw [if_neg (by decide), if_neg (by decide), if_neg (by decide),
    if_neg (by decide), if_neg (by decide), if_neg (by decide),
    if_pos (by decide)]
  unfold addNonEcfFormatField
  rw [htab]
  simp only []
  rw [if_neg (by decide)]

/-- The `_remove_ecf_code_and_aliases` handler on an ECF CODE field whose
tag is still expected. -/
lemma applyHandler_ecf_code (s : PState) (v : Option String)
    (hecf : ECF_CODE ∈ s.expected.expected) :
    applyHandler FieldHandler.removeEcfCodeAndAliases s ECF_CODE v =
      HandlerOut.ret { s with expected :=
        ((s.expected.removeExpectedField ECF_CODE).2).discard BCF_CODE }
        STATUS_OK := by
  unfold applyHandler
  simp only []
  rw [(by simp [ExpectedFields.removeExpectedField, hecf] :
    (s.expected.removeExpectedField ECF_CODE).1 = true)]
  simp

/-- The `_remove_field` handler on a field whose tag is still expected. -/
lemma applyHandler_removeField_ok (s : PState) (tag : String)
    (v : Option String) (hmem : tag ∈ s.expected.expected) :
    applyHandler FieldHandler.removeField s tag v =
      HandlerOut.ret { s with expected :=
        (s.expected.removeExpectedField tag).2 } STATUS_OK := by
  unfold applyHandler
  simp only []
  rw [(by simp [ExpectedFields.removeExpectedField, hmem] :
    (s.expected.removeExpectedField tag).1 = true)]
  simp

/-- Dispatch in main mode, away from the mutable `PIN1` entry, is the
`_switch` lookup with the unknown-name fallback. -/
lemma dispatch_main_eq (s : PState) (hmode : s.mode = PMode.main)
    (tag : String) (hne : ¬ tag = PIN1) :
    dispatch s tag =
      (switchMain.lookup tag).getD FieldHandler.unknownNameH := by
  unfold dispatch
  rw [hmode]
  simp only []
  rw [if_neg hne]

/-- One-step unfolding of `runFields` on a non-empty field list. -/
lemma runFields_cons_eq (stopAt : Option String) (s : PState) (r : SplitRes)
    (rest : List SplitRes) :
    runFields stopAt s (r :: rest) =
      match processTagged stopAt s "" r with
      | .stop => ⟨[], s, none, false⟩
      | .abort msg => ⟨[], s, some msg, false⟩
      | .crash => ⟨[], s, none, true⟩
      | .cont s₁ out =>
          let q := runFields stopAt s₁ rest
          ⟨out :: q.outputs, q.state, q.message, q.crashed⟩ := rfl

/-- Unfolding `runFields` on a continuing step. -/
lemma runFields_cons {stopAt : Option String} {s : PState} {r : SplitRes}
    {rest : List SplitRes} {s₁ : PState} {out : FieldOut}
    (h : processTagged stopAt s "" r = LoopOut.cont s₁ out) :
    runFields stopAt s (r :: rest) =
      { outputs := out :: (runFields stopAt s₁ rest).outputs, state := (runFields stopAt s₁ rest).state, message := (runFields stopAt s₁ rest).message, crashed := (runFields stopAt s₁ rest).crashed } := by
  rw [runFields_cons_eq, h]

/-- Unfolding `runFields` on the empty field list. -/
lemma runFields_nil (stopAt : Option String) (s : PState) :
    runFields stopAt s [] = ⟨[], s, none, false⟩ := rfl

/-- A main-mode ECF CODE field whose tag is still expected is consumed
with status `ok`, discarding the BCF CODE alias. -/
lemma step_ok_ecf (s : PState) (v : Option String)
    (hmode : s.mode = PMode.main)
    (hecf : ECF_CODE ∈ s.expected.expected) :
    processTagged none s "" ⟨NAME_ECF_CODE, v, ECF_CODE⟩ =
      LoopOut.cont
        { s with expected := ((s.expected.removeExpectedField ECF_CODE).2).discard BCF_CODE, history := pushName s.history ECF_CODE }
        ⟨NAME_ECF_CODE, v, ECF_CODE, STATUS_OK⟩ := by
  have hd : dispatch s ECF_CODE = FieldHandler.removeEcfCodeAndAliases := by
    rw [dispatch_main_eq s hmode ECF_CODE (by decide)]
    decide
  have happ : applyHandler (dispatch s ECF_CODE) s ECF_CODE v =
      HandlerOut.ret { s with expected := ((s.expected.removeExpectedField ECF_CODE).2).discard BCF_CODE } STATUS_OK := by
    rw [hd]
    exact applyHandler_ecf_code s v hecf
  exact processTagged_ok s "" NAME_ECF_CODE v ECF_CODE _ happ

/-- A main-mode field dispatched to `_remove_field` whose tag is still
expected is consumed with status `ok`. -/
lemma step_ok_removeField (s : PState) (name : String) (v : Option String)
    (tag : String) (hmode : s.mode = PMode.main) (hne : ¬ tag = PIN1)
    (hlook : (switchMain.lookup tag).getD FieldHandler.unknownNameH =
      FieldHandler.removeField)
    (hmem : tag ∈ s.expected.expected) :
    processTagged none s "" ⟨name, v, tag⟩ =
      LoopOut.cont
        { s with expected := (s.expected.removeExpectedField tag).2, history := pushName s.history tag }
        ⟨name, v, tag, STATUS_OK⟩ := by
  have hd : dispatch s tag = FieldHandler.removeField := by
    rw [dispatch_main_eq s hmode tag hne]
    exact hlook
  have happ : applyHandler (dispatch s tag) s tag v =
      HandlerOut.ret { s with expected := (s.expected.removeExpectedField tag).2 } STATUS_OK := by
    rw [hd]
    exact applyHandler_removeField_ok s tag v hmem
  exact processTagged_ok s "" name v tag _ happ

/-- C5: in any main-mode state in which both ECF CODE and CLUB CODE are
still expected, the two fields are consumed with status `ok` in either
order — the second of the two is never classified `unexpected`.  The
mutual-exclusion rule exists only in `validate_pin_field_combinations`,
which instead reports `unexpected` whenever BOTH codes are still missing
at a record boundary (and its result is discarded by every parser call
site). -/
theorem c5_both_codes_consumed_ok (s : PState) (v₁ v₂ : Option String)
    (hmode : s.mode = PMode.main)
    (hecf : ECF_CODE ∈ s.expected.expected)
    (hclub : CLUB_CODE ∈ s.expected.expected) :
    ((runFields none s [⟨NAME_ECF_CODE, v₁, ECF_CODE⟩, ⟨NAME_CLUB_CODE, v₂, CLUB_CODE⟩]).outputs.map (fun o => o.status) = [STATUS_OK, STATUS_OK]) ∧
    ((runFields none s [⟨NAME_CLUB_CODE, v₂, CLUB_CODE⟩, ⟨NAME_ECF_CODE, v₁, ECF_CODE⟩]).outputs.map (fun o => o.status) = [STATUS_OK, STATUS_OK]) ∧
    (∀ e : ExpectedFields, ECF_CODE ∈ e.expected → CLUB_CODE ∈ e.expected →
      e.validatePinFieldCombinations = some TAG_ERROR_UNEXPECTED) := by
  refine ⟨?_, ?_, ?_⟩
  · have hmem2 : CLUB_CODE ∈
        (((s.expected.removeExpectedField ECF_CODE).2).discard
          BCF_CODE).expected := by
      simp only [ExpectedFields.removeExpectedField, ExpectedFields.discard]
      rw [if_pos hecf]
      exact (List.mem_erase_of_ne (by decide)).mpr
        ((List.mem_erase_of_ne (by decide)).mpr hclub)
    rw [runFields_cons (step_ok_ecf s v₁ hmode hecf),
      runFields_cons (step_ok_removeField
        { s with expected := ((s.expected.removeExpectedField ECF_CODE).2).discard BCF_CODE, history := pushName s.history ECF_CODE }
        NAME_CLUB_CODE v₂ CLUB_CODE hmode (by decide) (by decide) hmem2),
      runFields_nil]
    rfl
  · have hmem2 : ECF_CODE ∈
        ((s.expected.removeExpectedField CLUB_CODE).2).expected := by
      simp only [ExpectedFields.removeExpectedField]
      rw [if_pos hclub]
      exact (List.mem_erase_of_ne (by decide)).mpr hecf
    rw [runFields_cons (step_ok_removeField s NAME_CLUB_CODE v₂ CLUB_CODE
        hmode (by decide) (by decide) hclub),
      runFields_cons (step_ok_ecf
        { s with expected := (s.expected.removeExpectedField CLUB_CODE).2, history := pushName s.history CLUB_CODE }
        v₁ hmode hmem2),
      runFields_nil]
    rfl
  · intro e he hc
    unfold ExpectedFields.validatePinFieldCombinations
    split_ifs with h1 h2 h3 h4
    · rfl
    · rfl
    · rfl
    · rfl
    · exact absurd ⟨he, hc⟩ h3

/-- A Pin-record state for the C5 witness. -/
def c5State : PState :=
  { expected := mkExpectedFields EFClass.plain (some PIN, some PLAYER_LIST)
    table := none
    mode := PMode.main
    pin1Handler := FieldHandler.removeField
    history := [] }

/-- Witness for C5 at a concrete Pin-record state. -/
theorem c5_both_codes_consumed_ok_witness :
    (runFields none c5State [⟨NAME_ECF_CODE, some "123456A", ECF_CODE⟩, ⟨NAME_CLUB_CODE, some "5", CLUB_CODE⟩]).outputs.map (fun o => o.status) = [STATUS_OK, STATUS_OK] :=
  (c5_both_codes_consumed_ok c5State (some "123456A") (some "5")
    (by decide) (by decide) (by decide)).1

/-- `discard` preserves the class of the expected-field object. -/
lemma discard_efClass (e : ExpectedFields) (n : String) :
    (e.discard n).efClass = e.efClass := rfl

/-- `discard` preserves the context key of the expected-field object. -/
lemma discard_context (e : ExpectedFields) (n : String) :
    (e.discard n).context = e.context := rfl

/-- `add` preserves the class of the expected-field object. -/
lemma add_efClass (e : ExpectedFields) (n : String) :
    (e.add n).efClass = e.efClass := by
  unfold ExpectedFields.add
  simp only []
  split_ifs <;> rfl

/-- `add` preserves the context key of the expected-field object. -/
lemma add_context (e : ExpectedFields) (n : String) :
    (e.add n).context = e.context := by
  unfold ExpectedFields.add
  simp only []
  split_ifs <;> rfl

/-- `remove_minutes_for_game` preserves the class and context key. -/
lemma removeMinutesForGame_classCtx (e : ExpectedFields) (n : String) :
    (e.removeMinutesForGame n).2.efClass = e.efClass ∧
      (e.removeMinutesForGame n).2.context = e.context := by
  have h1 := removeExpectedField_efClass e n
  have h2 := removeExpectedField_context e n
  unfold ExpectedFields.removeMinutesForGame
  rcases hr : e.removeExpectedField n with ⟨b, e₁⟩
  rw [hr] at h1 h2
  cases b
  · exact ⟨h1, h2⟩
  · simp only [ExpectedFields.discard]
    split_ifs <;> exact ⟨h1, h2⟩

/-- `remove_minutes_and_moves` preserves the class and context key. -/
lemma removeMinutesAndMoves_classCtx (e : ExpectedFields) (n : String) :
    (e.removeMinutesAndMoves n).2.efClass = e.efClass ∧
      (e.removeMinutesAndMoves n).2.context = e.context := by
  have h1 := removeExpectedField_efClass e n
  have h2 := removeExpectedField_context e n
  unfold ExpectedFields.removeMinutesAndMoves
  rcases hr : e.removeExpectedField n with ⟨b, e₁⟩
  rw [hr] at h1 h2
  cases b
  · exact ⟨h1, h2⟩
  · simp only [ExpectedFields.discard]
    split_ifs <;> exact ⟨h1, h2⟩

/-- `remove_minutes_rest_of_game` preserves the class and context key. -/
lemma removeMinutesRestOfGame_classCtx (e : ExpectedFields) (n : String) :
    (e.removeMinutesRestOfGame n).2.efClass = e.efClass ∧
      (e.removeMinutesRestOfGame n).2.context = e.context := by
  have h1 := removeExpectedField_efClass e n
  have h2 := removeExpectedField_context e n
  unfold ExpectedFields.removeMinutesRestOfGame
  rcases hr : e.removeExpectedField n with ⟨b, e₁⟩
  rw [hr] at h1 h2
  cases b
  · exact ⟨h1, h2⟩
  · simp only [ExpectedFields.discard]
    split_ifs <;> exact ⟨h1, h2⟩

/-- Every handler that classifies a field `unknown` or `unexpected`
returns a state whose expected-field object still has the class and
context key it had before the handler ran. -/
lemma handler_error_classCtx (h : FieldHandler) (s : PState) (tag : String)
    (v : Option String) (s₁ : PState) (status : String)
    (happ : applyHandler h s tag v = HandlerOut.ret s₁ status)
    (herr : status = TAG_ERROR_UNKNOWN ∨ status = TAG_ERROR_UNEXPECTED) :
    s₁.expected.efClass = s.expected.efClass ∧
      s₁.expected.context = s.expected.context := by
  cases h <;> simp only [applyHandler] at happ <;>
    (repeat' split at happ) <;>
    (try injection happ with h1 h2) <;>
    (try subst h1) <;> (try subst h2) <;>
    first
      | cases happ
      | exact absurd herr (by decide)
      | exact ⟨rfl, rfl⟩
      | exact ⟨removeExpectedField_efClass _ _, removeExpectedField_context _ _⟩
      | exact ⟨(removeMinutesForGame_classCtx _ _).1,
          (removeMinutesForGame_classCtx _ _).2⟩
      | exact ⟨(removeMinutesAndMoves_classCtx _ _).1,
          (removeMinutesAndMoves_classCtx _ _).2⟩
      | exact ⟨(removeMinutesRestOfGame_classCtx _ _).1,
          (removeMinutesRestOfGame_classCtx _ _).2⟩

/-- `_add_non_ecf_format_field` always rebuilds the live expected-field
object as a fresh construction from its own class and context key. -/
lemma addNonEcf_expected (s₁ : PState) (name : String) (s₂ : PState)
    (h : addNonEcfFormatField s₁ name = some s₂) :
    s₂.expected =
      mkExpectedFields s₁.expected.efClass s₁.expected.context := by
  unfold addNonEcfFormatField at h
  split at h
  · simp only [] at h
    injection h with h'
    subst h'
    rfl
  · split at h
    · cases h
    · simp only [] at h
      injection h with h'
      subst h'
      rfl

/-- C9: whenever the driver loop classifies a field `unknown` or
`unexpected` and continues, the live expected-field context has been
replaced by a freshly constructed object of the same class built from the
same (part-or-record, enclosing-part) key, so the key (and class) of the
live context is unchanged by handling the error. -/
theorem c9_error_rebuilds_same_key (stopAt : Option String) (s : PState)
    (body : String) (r : SplitRes) (s' : PState) (out : FieldOut)
    (hrun : processTagged stopAt s body r = LoopOut.cont s' out)
    (herr : out.status = TAG_ERROR_UNKNOWN ∨
      out.status = TAG_ERROR_UNEXPECTED) :
    s'.expected = mkExpectedFields s.expected.efClass s.expected.context ∧
      s'.expected.efClass = s.expected.efClass ∧
      s'.expected.context = s.expected.context := by
  have hmain : s'.expected =
      mkExpectedFields s.expected.efClass s.expected.context := by
    unfold processTagged at hrun
    split at hrun
    · cases hrun
    · cases happ : applyHandler (dispatch s r.tag) s r.tag r.value with
      | tooLong msg => rw [happ] at hrun; cases hrun
      | crash => rw [happ] at hrun; cases hrun
      | ret s₁ status =>
          rw [happ] at hrun
          simp only [] at hrun
          repeat' split at hrun
          all_goals try cases hrun
          all_goals subst_vars
          all_goals try (simp only [] at herr; exact absurd herr (by decide))
          all_goals rename_i heq
          all_goals obtain ⟨hc1, hc2⟩ :=
            handler_error_classCtx _ s r.tag r.value s₁ _ happ herr
          all_goals rw [addNonEcf_expected s₁ _ s' heq, hc1, hc2]
  exact ⟨hmain, by rw [hmain]; rfl, by rw [hmain]; rfl⟩

/-- The parser state after the unknown field FOO is handled from the
initial state. -/
def c9AfterFoo : PState :=
  { expected := mkExpectedFields EFClass.plain (none, none)
    table := none
    mode := PMode.main
    pin1Handler := FieldHandler.removeField
    history := [("FOO", "FOO")] }

/-- Witness for C9 at a concrete unknown field in the initial context. -/
theorem c9_error_rebuilds_same_key_witness :
    c9AfterFoo.expected = mkExpectedFields initialPState.expected.efClass initialPState.expected.context ∧ c9AfterFoo.expected.efClass = initialPState.expected.efClass ∧ c9AfterFoo.expected.context = initialPState.expected.context :=
  c9_error_rebuilds_same_key none initialPState "" ⟨"FOO", some "BAR", "FOO"⟩
    c9AfterFoo ⟨"FOO", some "BAR", "FOO", TAG_ERROR_UNKNOWN⟩
    (by decide) (by decide)

/-- C6 counterexample document: BCF CODE, then an unknown field, then
ECF CODE in the same Pin record. -/
def c6Document : String :=
  "#EVENT DETAILS#PLAYER LIST#PIN=1#BCF CODE=1234567#FOO=1#ECF CODE=1234567#FINISH"

/-- Counterexample to C6 as stated: BCF CODE appears and ECF CODE appears
later in the same Pin record, yet the ECF CODE field is classified `ok`,
because the intervening unknown field FOO made the parser rebuild the
expected-field context, restoring the discarded ECF CODE alias. -/
theorem c6_counterexample_ecf_after_bcf_ok :
    (parseText c6Document none).outputs.map (fun o => (o.tag, o.status)) =
      [(EVENT_DETAILS, STATUS_OK), (PLAYER_LIST, STATUS_OK),
        (PIN, STATUS_OK), (BCF_CODE, STATUS_OK), ("FOO", TAG_ERROR_UNKNOWN),
        (ECF_CODE, STATUS_OK), (FINISH, STATUS_OK),
        (TABLE_VALUE, STATUS_IGNORE)] := by decide

/-- The field tags that can occur inside a Pin record without starting a
new record or part: the fields allowed in the Player List other than PIN,
plus the record-scoped comment tag. -/
def pinRecordFieldTags : List String :=
  COMMENT_LIST :: FIELDS_ALLOWED_IN_PLAYERS.erase PIN

/-- The four remove-style handlers only erase names from the expected set
on success, and leave the table and switch untouched. -/
lemma eraseOnly_ok (h : FieldHandler) (s : PState) (tag : String)
    (v : Option String) (s₁ : PState)
    (hh : h = FieldHandler.removeField ∨
      h = FieldHandler.removeClubNameAndAliases ∨
      h = FieldHandler.removeEcfCodeAndAliases ∨
      h = FieldHandler.removeEcfNoAndAliases)
    (happ : applyHandler h s tag v = HandlerOut.ret s₁ STATUS_OK) :
    (∀ x ∈ s₁.expected.expected, x ∈ s.expected.expected) ∧
      s₁.table = s.table ∧ s₁.mode = s.mode := by
  rcases hh with rfl | rfl | rfl | rfl <;>
    simp only [applyHandler] at happ <;>
    (repeat' split at happ) <;>
    injection happ with h1 h2 <;>
    first
      | exact absurd h2 (by decide)
      | (subst h1; exact ⟨removeExpectedField_subset _ _, rfl, rfl⟩)
      | (subst h1;
          exact ⟨fun x hx => removeExpectedField_subset _ _ x
            (List.mem_of_mem_erase hx), rfl, rfl⟩)

/-- The `_remove_ecf_code_and_aliases` handler on a BCF CODE field whose
tag is still expected: consumed `ok`, and the ECF CODE alias is discarded
from the expected set. -/
lemma applyHandler_bcf_code (s : PState) (v : Option String)
    (hbcf : BCF_CODE ∈ s.expected.expected) :
    applyHandler FieldHandler.removeEcfCodeAndAliases s BCF_CODE v =
      HandlerOut.ret { s with expected :=
        ((s.expected.removeExpectedField BCF_CODE).2).discard ECF_CODE }
        STATUS_OK := by
  unfold applyHandler
  simp only []
  rw [(by simp [ExpectedFields.removeExpectedField, hbcf] :
    (s.expected.removeExpectedField BCF_CODE).1 = true)]
  rw [if_pos rfl, if_neg (show ¬ BCF_CODE = ECF_CODE by decide)]

/-- The `_remove_ecf_code_and_aliases` handler on an ECF CODE field whose
tag is no longer expected: classified `unexpected`, state unchanged. -/
lemma applyHandler_ecf_code_fail (s : PState) (v : Option String)
    (hecf : ECF_CODE ∉ s.expected.expected) :
    applyHandler FieldHandler.removeEcfCodeAndAliases s ECF_CODE v =
      HandlerOut.ret { s with expected :=
        (s.expected.removeExpectedField ECF_CODE).2 }
        TAG_ERROR_UNEXPECTED := by
  unfold applyHandler
  simp only []
  rw [(by simp [ExpectedFields.removeExpectedField, hecf] :
    (s.expected.removeExpectedField ECF_CODE).1 = false)]
  rw [if_neg (show ¬ false = true by decide)]

/-- One `ok`-classified record-internal field keeps the loop in main mode
with no pending table, and cannot put ECF CODE back into the expected
set. -/
lemma pinRecStep (s s₁ : PState) (r : SplitRes) (out : FieldOut)
    (hw : r.tag ∈ pinRecordFieldTags)
    (hmode : s.mode = PMode.main) (htab : s.table = none)
    (hecf : ECF_CODE ∉ s.expected.expected)
    (hstep : processTagged none s "" r = LoopOut.cont s₁ out)
    (hok : out.status = STATUS_OK) :
    s₁.mode = PMode.main ∧ s₁.table = none ∧
      ECF_CODE ∉ s₁.expected.expected := by
  have hprops : ¬ r.tag = PIN1 ∧
      ((switchMain.lookup r.tag).getD FieldHandler.unknownNameH =
          FieldHandler.removeField ∨
        (switchMain.lookup r.tag).getD FieldHandler.unknownNameH =
          FieldHandler.removeClubNameAndAliases ∨
        (switchMain.lookup r.tag).getD FieldHandler.unknownNameH =
          FieldHandler.removeEcfCodeAndAliases ∨
        (switchMain.lookup r.tag).getD FieldHandler.unknownNameH =
          FieldHandler.removeEcfNoAndAliases) :=
    (by decide : ∀ t ∈ pinRecordFieldTags, ¬ t = PIN1 ∧
      ((switchMain.lookup t).getD FieldHandler.unknownNameH =
          FieldHandler.removeField ∨
        (switchMain.lookup t).getD FieldHandler.unknownNameH =
          FieldHandler.removeClubNameAndAliases ∨
        (switchMain.lookup t).getD FieldHandler.unknownNameH =
          FieldHandler.removeEcfCodeAndAliases ∨
        (switchMain.lookup t).getD FieldHandler.unknownNameH =
          FieldHandler.removeEcfNoAndAliases)) r.tag hw
  have hd := dispatch_main_eq s hmode r.tag hprops.1
  unfold processTagged at hstep
  split at hstep
  · cases hstep
  · cases happ : applyHandler (dispatch s r.tag) s r.tag r.value with
    | tooLong msg => rw [happ] at hstep; cases hstep
    | crash => rw [happ] at hstep; cases hstep
    | ret sh status =>
        rw [happ] at hstep
        simp only [] at hstep
        repeat' split at hstep
        all_goals try cases hstep
        all_goals subst_vars
        all_goals try (exact absurd (show STATUS_IGNORE = STATUS_OK from hok) (by decide))
        all_goals try (exact absurd (show STATUS_COLUMN = STATUS_OK from hok) (by decide))
        all_goals try (exact absurd (show STATUS_TABLE_START = STATUS_OK from hok) (by decide))
        all_goals try (exact absurd (show STATUS_TABLE_VALUE = STATUS_OK from hok) (by decide))
        all_goals try (exact absurd (show STATUS_TABLE_END = STATUS_OK from hok) (by decide))
        all_goals try (exact absurd rfl (by assumption))
        rw [hd] at happ
        obtain ⟨hsub, htabeq, hmodeeq⟩ :=
          eraseOnly_ok _ s r.tag r.value sh hprops.2 happ
        refine ⟨?_, ?_, ?_⟩
        · show sh.mode = PMode.main
          rw [hmodeeq]; exact hmode
        · show sh.table = none
          rw [htabeq]; exact htab
        · show ECF_CODE ∉ sh.expected.expected
          exact fun hx => hecf (hsub _ hx)

/-- Running any list of `ok`-classified record-internal fields preserves
main mode, the absence of a pending table, and the absence of ECF CODE
from the expected set. -/
lemma runFields_pinRecInv (rs : List SplitRes) : ∀ (s : PState),
    s.mode = PMode.main → s.table = none →
    ECF_CODE ∉ s.expected.expected →
    (∀ r ∈ rs, r.tag ∈ pinRecordFieldTags) →
    (∀ o ∈ (runFields none s rs).outputs, o.status = STATUS_OK) →
    (runFields none s rs).state.mode = PMode.main ∧
      (runFields none s rs).state.table = none ∧
      ECF_CODE ∉ (runFields none s rs).state.expected.expected := by
  induction rs with
  | nil => exact fun s hm ht he _ _ => ⟨hm, ht, he⟩
  | cons r rest ih =>
      intro s hm ht he hw hok
      have hcons := runFields_cons_eq none s r rest
      cases hstep : processTagged none s "" r with
      | stop => rw [hcons, hstep]; exact ⟨hm, ht, he⟩
      | abort msg => rw [hcons, hstep]; exact ⟨hm, ht, he⟩
      | crash => rw [hcons, hstep]; exact ⟨hm, ht, he⟩
      | cont s₁ out =>
          have houts : (runFields none s (r :: rest)).outputs =
              out :: (runFields none s₁ rest).outputs := by
            rw [hcons, hstep]
          have hokout : out.status = STATUS_OK :=
            hok out (by rw [houts]; exact List.mem_cons_self _ _)
          have hrest : ∀ o ∈ (runFields none s₁ rest).outputs,
              o.status = STATUS_OK :=
            fun o ho => hok o (by rw [houts]; exact List.mem_cons_of_mem _ ho)
          obtain ⟨hm₁, ht₁, he₁⟩ := pinRecStep s s₁ r out
            (hw r (List.mem_cons_self _ _)) hm ht he hstep hokout
          have hstate : (runFields none s (r :: rest)).state =
              (runFields none s₁ rest).state := by
            rw [hcons, hstep]
          rw [hstate]
          exact ih s₁ hm₁ ht₁ he₁
            (fun x hx => hw x (List.mem_cons_of_mem _ hx)) hrest

/-- With ECF CODE absent from the expected set, a main-mode ECF CODE
field with no pending table is classified `unexpected` and the loop
continues. -/
lemma step_ecf_unexpected (s : PState) (v : Option String)
    (hmode : s.mode = PMode.main) (htab : s.table = none)
    (hecf : ECF_CODE ∉ s.expected.expected) :
    (processTagged none s "" ⟨NAME_ECF_CODE, v, ECF_CODE⟩).contStatus =
      some TAG_ERROR_UNEXPECTED := by
  have hd : dispatch s ECF_CODE = FieldHandler.removeEcfCodeAndAliases := by
    rw [dispatch_main_eq s hmode ECF_CODE (by decide)]
    decide
  have happ : applyHandler (dispatch s ECF_CODE) s ECF_CODE v =
      HandlerOut.ret { s with expected :=
        (s.expected.removeExpectedField ECF_CODE).2 }
        TAG_ERROR_UNEXPECTED := by
    rw [hd]
    exact applyHandler_ecf_code_fail s v hecf
  rw [processTagged_unexpected s "" NAME_ECF_CODE v ECF_CODE _ happ htab]
  rfl

/-- The parser state after a BCF CODE field is consumed `ok` (the ECF
CODE alias is discarded). -/
def afterBcf (s : PState) : PState :=
  { s with expected := ((s.expected.removeExpectedField BCF_CODE).2).discard ECF_CODE, history := pushName s.history BCF_CODE }

/-- C6: the alias discard holds along error-free runs — after BCF CODE
is consumed `ok` in a Pin record (duplicate-free expected set), ECF CODE
is no longer expected, and it stays out across any record-internal fields
all classified `ok`, so a later ECF CODE field is classified
`unexpected`.  (An intervening erroneous field rebuilds the context and
restores the alias, which is why the proviso is needed.) -/
theorem c6_alias_discard_until_error (s : PState) (v₁ v₂ : Option String)
    (rs : List SplitRes)
    (hmode : s.mode = PMode.main) (htab : s.table = none)
    (hbcf : BCF_CODE ∈ s.expected.expected)
    (hnd : s.expected.expected.Nodup)
    (hw : ∀ r ∈ rs, r.tag ∈ pinRecordFieldTags)
    (hok : ∀ o ∈ (runFields none (afterBcf s) rs).outputs,
      o.status = STATUS_OK) :
    processTagged none s "" ⟨NAME_BCF_CODE, v₁, BCF_CODE⟩ =
      LoopOut.cont (afterBcf s) ⟨NAME_BCF_CODE, v₁, BCF_CODE, STATUS_OK⟩ ∧
    ECF_CODE ∉ (afterBcf s).expected.expected ∧
    (processTagged none (runFields none (afterBcf s) rs).state ""
        ⟨NAME_ECF_CODE, v₂, ECF_CODE⟩).contStatus =
      some TAG_ERROR_UNEXPECTED := by
  have hd : dispatch s BCF_CODE = FieldHandler.removeEcfCodeAndAliases := by
    rw [dispatch_main_eq s hmode BCF_CODE (by decide)]
    decide
  have hstep1 : processTagged none s "" ⟨NAME_BCF_CODE, v₁, BCF_CODE⟩ =
      LoopOut.cont (afterBcf s)
        ⟨NAME_BCF_CODE, v₁, BCF_CODE, STATUS_OK⟩ :=
    processTagged_ok s "" NAME_BCF_CODE v₁ BCF_CODE _
      (by rw [hd]; exact applyHandler_bcf_code s v₁ hbcf)
  have hecfout : ECF_CODE ∉ (afterBcf s).expected.expected := by
    simp only [afterBcf, ExpectedFields.removeExpectedField,
      ExpectedFields.discard]
    rw [if_pos hbcf]
    exact List.Nodup.not_mem_erase (List.Nodup.erase _ hnd)
  obtain ⟨hmf, htf, hef⟩ := runFields_pinRecInv rs (afterBcf s)
    hmode htab hecfout hw hok
  exact ⟨hstep1, hecfout, step_ecf_unexpected _ v₂ hmf htf hef⟩

/-- A Pin-record state for the C6 witness. -/
def c6State : PState :=
  { expected := mkExpectedFields EFClass.plain (some PIN, some PLAYER_LIST)
    table := none
    mode := PMode.main
    pin1Handler := FieldHandler.removeField
    history := [] }

/-- Witness for C6 at a concrete Pin-record state with one intervening
`ok` field. -/
theorem c6_alias_discard_until_error_witness :
    processTagged none c6State "" ⟨NAME_BCF_CODE, some "1234567", BCF_CODE⟩ = LoopOut.cont (afterBcf c6State) ⟨NAME_BCF_CODE, some "1234567", BCF_CODE, STATUS_OK⟩ ∧ ECF_CODE ∉ (afterBcf c6State).expected.expected ∧ (processTagged none (runFields none (afterBcf c6State) [⟨"NAME", some "SMITH", NAME⟩]).state "" ⟨NAME_ECF_CODE, some "1234567", ECF_CODE⟩).contStatus = some TAG_ERROR_UNEXPECTED :=
  c6_alias_discard_until_error c6State (some "1234567") (some "1234567")
    [⟨"NAME", some "SMITH", NAME⟩] (by decide) (by decide) (by decide)
    (by decide) (by decide) (by decide)
